import Mathlib

/-!
A verification development for the bigpicture stream-archiver.

The definitions below are a shallow embedding of the C++ sources:
  * `bigpicture_utils.h`  — `compressor_t`, `unique_buffer` with its codec
    dispatch (`encode`/`decode`) and the LZ4 / bitshuffle-LZ4 wrappers;
  * `dectris_utils.h/.cpp` — `detector_config_t`, `mask_t`,
    `dectris_global_data` (the global-header state machine);
  * `stream_to_cbf.h/.cpp` — the per-series/per-frame state machine and the
    CBF emission calls.

Modelling conventions:
  * machine bytes are `Nat`s, byte buffers are `List Nat`;
  * C++ `double` is modelled by `double` below: either a NaN or a rational
    value (IEEE rounding is outside the scope of the claims checked here);
  * C++ exceptions are modelled with `Except String`;
  * the simdjson library is modelled by an abstract parameter
    `J : List Nat → Except String jval` turning raw message bytes into a
    JSON document, and JSON documents are modelled by the inductive `jval`;
  * the LZ4 and bitshuffle libraries are modelled by an abstract `codec_lib`
    record; theorems about compression assume the contracts those libraries
    advertise (stated as explicit hypotheses);
  * the CBF library is modelled by a log of the calls issued to it
    (`cbf_op`); `snprintf` formatting of the miniCBF header is modelled by
    recording the argument values passed to it (`cbf_header_values`);
  * the sources are compiled with `NDEBUG` in release mode: blocks guarded
    by `#ifndef NDEBUG` (htype checks on parts 3/5/7, debug logging,
    the debug memset in `unique_buffer::reset`) are omitted, matching the
    release build.
  * `size_t` arithmetic is modelled by `size_t_of_int` (reduction mod 2^64).
-/

namespace BigPicture

/-- The legal values of the "compression" config parameter
(`bigpicture_utils.h`, `enum compressor_t`). -/
inductive compressor_t : Type where
  | unknown : compressor_t
  | none : compressor_t
  | lz4 : compressor_t
  | bslz4 : compressor_t
deriving DecidableEq, Repr

/-- The `header_detail` field of a stream-interface global header
(`dectris_utils.h`, `enum class header_detail_t`). -/
inductive header_detail_t : Type where
  | unknown : header_detail_t
  | none : header_detail_t
  | basic : header_detail_t
  | all : header_detail_t
deriving DecidableEq, Repr

/-- Conversion of a signed 64-bit value to `size_t`, i.e. reduction
modulo 2^64 (used where the C++ sources mix `int64_t` and `size_t`). -/
def size_t_of_int (n : Int) : Nat :=
  (n % (2 ^ 64 : Int)).toNat

/-- Model of a C++ `double`: NaN or an exact rational value. -/
inductive double : Type where
  | nan : double
  | val : ℚ → double
deriving DecidableEq, Repr

/-- Addition on modelled doubles; NaN is absorbing, as in IEEE arithmetic. -/
def double.add : double → double → double
  | .val a, .val b => .val (a + b)
  | _, _ => .nan

/-- Multiplication on modelled doubles; NaN is absorbing. -/
def double.mul : double → double → double
  | .val a, .val b => .val (a * b)
  | _, _ => .nan

instance : Add double := ⟨double.add⟩

instance : Mul double := ⟨double.mul⟩

/-- The C++ conversion `(double)n` of a 64-bit integer. -/
def double.ofInt (n : Int) : double := .val n

/-- The C++ cast of a `double` to an integer type truncates toward zero;
the cast of a NaN is unspecified and modelled as 0. -/
def double.toIntTrunc : double → Int
  | .nan => 0
  | .val q => q.num / (q.den : Int)

/-- Model of a simdjson DOM element (`simdjson::dom::element`). -/
inductive jval : Type where
  | jstr : String → jval
  | jint : Int → jval
  | jdouble : ℚ → jval
  | jbool : Bool → jval
  | jnull : jval
  | jarr : List jval → jval
  | jobj : List (String × jval) → jval

/-- `record[key]` on a simdjson object: the first binding of `key`, or a
simdjson error for non-objects / missing keys. -/
def jlookup (v : jval) (key : String) : Except String jval :=
  match v with
  | .jobj fields =>
    match fields.find? (fun p => p.1 = key) with
    | some p => .ok p.2
    | Option.none => .error "NO_SUCH_FIELD"
  | _ => .error "INCORRECT_TYPE"

/-- `element.get<std::string_view>()`. -/
def jget_string (v : jval) (key : String) : Except String String :=
  match jlookup v key with
  | .ok (.jstr s) => .ok s
  | .ok _ => .error "INCORRECT_TYPE"
  | .error e => .error e

/-- `element.get<int64_t>()`. -/
def jget_int (v : jval) (key : String) : Except String Int :=
  match jlookup v key with
  | .ok (.jint n) => .ok n
  | .ok _ => .error "INCORRECT_TYPE"
  | .error e => .error e

/-- `element.get<double>()`; simdjson also accepts integer JSON numbers. -/
def jget_double (v : jval) (key : String) : Except String double :=
  match jlookup v key with
  | .ok (.jint n) => .ok (.val n)
  | .ok (.jdouble q) => .ok (.val q)
  | .ok _ => .error "INCORRECT_TYPE"
  | .error e => .error e

/-- `record["shape"].get<json_arr>().at(i).get<int64_t>()`. -/
def jget_arr_int (v : jval) (key : String) (i : Nat) : Except String Int :=
  match jlookup v key with
  | .ok (.jarr xs) =>
    match xs.get? i with
    | some (.jint n) => .ok n
    | _ => .error "INCORRECT_TYPE"
  | .ok _ => .error "INCORRECT_TYPE"
  | .error e => .error e

/-- `extract_json_value<T>` / `extract_simdjson_number<int64_t>`
(`bigpicture_utils.h`): extract a mandatory integer field or throw. -/
def extract_simdjson_int (src : jval) (name : String) : Except String Int :=
  match jget_int src name with
  | .ok n => .ok n
  | .error _ => .error ("simdjson failed while parsing attribute: " ++ name)

/-- `extract_simdjson_number<double>`: extract a mandatory numeric field
or throw. -/
def extract_simdjson_double (src : jval) (name : String) :
    Except String double :=
  match jget_double src name with
  | .ok d => .ok d
  | .error _ => .error ("simdjson failed while parsing attribute: " ++ name)

/-- `extract_simdjson_string`: extract a mandatory string field or throw. -/
def extract_simdjson_string (src : jval) (name : String) :
    Except String String :=
  match jget_string src name with
  | .ok s => .ok s
  | .error _ => .error ("simdjson failed while parsing attribute: " ++ name)

/-- `validate_htype` (`dectris_utils.h`): throw unless the record's
`htype` field equals the expected value. -/
def validate_htype (record : jval) (expected : String) :
    Except String Unit :=
  match jget_string record "htype" with
  | .ok s => if s = expected then .ok () else .error ("Expected htype: " ++ expected)
  | .error _ => .error ("Expected htype: " ++ expected)

/-- Model of the external LZ4 and bitshuffle libraries: the functions
called by `unique_buffer` (`bigpicture_utils.h`).  Compression results are
the byte lists actually written; a `Option.none` result models a negative
return code. -/
structure codec_lib : Type where
  /-- `LZ4_compressBound(src_len)`. -/
  LZ4_compressBound : Nat → Nat
  /-- `LZ4_compress_default(src, dst, src_len, dst_cap)`: the bytes written
  into `dst`.  The C function returns the byte count written, which is 0 on
  failure and never negative. -/
  LZ4_compress_default : List Nat → Nat → List Nat
  /-- `LZ4_decompress_safe(src, dst, src_len, dst_cap)`: `Option.none`
  models a negative return code, otherwise the bytes written (whose length
  is the function's return value). -/
  LZ4_decompress_safe : List Nat → Nat → Option (List Nat)
  /-- `bshuf_compress_lz4_bound(n_elements, element_size, 0)`. -/
  bshuf_compress_lz4_bound : Nat → Nat → Nat
  /-- `bshuf_compress_lz4(src, dst, n_elements, element_size, 0)`:
  `Option.none` models a negative return code, otherwise the bytes
  written (whose length is the function's return value). -/
  bshuf_compress_lz4 : List Nat → Nat → Nat → Option (List Nat)
  /-- `bshuf_decompress_lz4(src, dst, n_elements, element_size, 0)`:
  `Option.none` models a negative return code, otherwise the bytes written
  into `dst` together with the count of `src` bytes processed (the
  function's return value). -/
  bshuf_decompress_lz4 : List Nat → Nat → Nat → Option (List Nat × Nat)

/-- `memcpy(dst, src, src.length)` on byte lists: overwrite the first
`src.length` bytes of `dst`. -/
def memcpy_bytes (dst src : List Nat) : List Nat :=
  src ++ dst.drop src.length

/-- `unique_buffer` (`bigpicture_utils.h`): an owning byte region.
`m_len` is the tracked length; `m_data` the bytes actually held (they may
disagree in length after an out-of-bounds `memcpy`, which the tracking
does not see). -/
structure unique_buffer : Type where
  m_len : Nat
  m_data : List Nat
deriving DecidableEq, Repr

namespace unique_buffer

/-- `unique_buffer::reset(uncompressed_size)`: no-op when the size is
unchanged, release when 0, otherwise allocate fresh (indeterminate,
modelled zeroed) storage. -/
def reset (self : unique_buffer) (uncompressed_size : Nat := 0) :
    unique_buffer :=
  if uncompressed_size = self.m_len then self
  else if uncompressed_size = 0 then ⟨0, []⟩
  else ⟨uncompressed_size, List.replicate uncompressed_size 0⟩

/-- Modelled from the spec: `unique_buffer::resize` is called by
`stream_to_cbf.cpp` but is not defined under `src/`; the spec's Buffer
section gives it exactly the `reset` semantics ("if `n == current`,
no-op; if `n == 0`, release; otherwise allocate fresh storage of size
`n`"), which is also what `reset` implements. -/
def resize (self : unique_buffer) (n : Nat) : unique_buffer :=
  self.reset n

/-- `unique_buffer::lz4_decode` (`bigpicture_utils.h`). -/
def lz4_decode (lib : codec_lib) (self : unique_buffer)
    (cbuf : List Nat) : Except String unique_buffer :=
  match lib.LZ4_decompress_safe cbuf self.m_len with
  | Option.none => .error "LZ4_decompress_safe() failed"
  | some out =>
    if out.length ≠ self.m_len then
      .error "LZ4_decompress_safe() decompressed fewer bytes than expected"
    else
      .ok ⟨self.m_len, memcpy_bytes self.m_data out⟩

/-- `unique_buffer::bslz4_decode` (`bigpicture_utils.h`); `n_elements`
is computed from the buffer's current length. -/
def bslz4_decode (lib : codec_lib) (self : unique_buffer)
    (cbuf : List Nat) (element_size : Nat := 4) :
    Except String unique_buffer :=
  let n_elements := self.m_len / element_size
  match lib.bshuf_decompress_lz4 cbuf n_elements element_size with
  | Option.none => .error "bshuf_decompress_lz4() failed"
  | some (out, consumed) =>
    if consumed ≠ cbuf.length then
      .error "bshuf_decompress_lz4() failed to decompress all data"
    else
      .ok ⟨self.m_len, memcpy_bytes self.m_data out⟩

/-- `unique_buffer::lz4_encode` (`bigpicture_utils.h`): grow to the
LZ4 bound when smaller, compress, and return the new buffer together with
the compressed byte count.  The C check `comp_result < 0` can never fire
(`LZ4_compress_default` returns a byte count, which is 0 on failure), so
it has no counterpart here. -/
def lz4_encode (lib : codec_lib) (self : unique_buffer)
    (src : List Nat) : Except String (unique_buffer × Nat) :=
  let upper_bound := lib.LZ4_compressBound src.length
  if upper_bound = 0 then
    .error "LZ4_compressBound() detected bad data."
  else
    let self := if self.m_len < upper_bound then self.reset upper_bound else self
    let comp := lib.LZ4_compress_default src self.m_len
    .ok (⟨self.m_len, memcpy_bytes self.m_data comp⟩, comp.length)

/-- `unique_buffer::bslz4_encode` (`bigpicture_utils.h`). -/
def bslz4_encode (lib : codec_lib) (self : unique_buffer)
    (src : List Nat) (element_size : Nat := 4) :
    Except String (unique_buffer × Nat) :=
  let n_elements := src.length / element_size
  let upper_bound := lib.bshuf_compress_lz4_bound n_elements element_size
  if upper_bound = 0 then
    .error "bshuf_compress_lz4_bound() detected bad data."
  else
    let self := if self.m_len < upper_bound then self.reset upper_bound else self
    match lib.bshuf_compress_lz4 src n_elements element_size with
    | Option.none => .error "bshuf_compress_lz4() failed"
    | some comp => .ok (⟨self.m_len, memcpy_bytes self.m_data comp⟩, comp.length)

/-- `unique_buffer::decode` (`bigpicture_utils.h`): codec dispatch; the
`none` codec is a plain memcpy of `src_len` bytes. -/
def decode (lib : codec_lib) (self : unique_buffer)
    (codec : compressor_t) (src : List Nat) (element_size : Nat := 4) :
    Except String unique_buffer :=
  match codec with
  | .bslz4 => self.bslz4_decode lib src element_size
  | .lz4 => self.lz4_decode lib src
  | .none => .ok ⟨self.m_len, memcpy_bytes self.m_data src⟩
  | .unknown => .error "Error in unique_buffer::decode : codec unsupported"

/-- `unique_buffer::encode` (`bigpicture_utils.h`): codec dispatch; the
`none` codec copies without resizing and returns `src_len`. -/
def encode (lib : codec_lib) (self : unique_buffer)
    (codec : compressor_t) (src : List Nat) (element_size : Nat := 4) :
    Except String (unique_buffer × Nat) :=
  match codec with
  | .bslz4 => self.bslz4_encode lib src element_size
  | .lz4 => self.lz4_encode lib src
  | .none => .ok (⟨self.m_len, memcpy_bytes self.m_data src⟩, src.length)
  | .unknown => .error "Error in unique_buffer::encode : codec unsupported"

end unique_buffer

/-- The contracts advertised by the LZ4 and bitshuffle libraries, used as
hypotheses by the compression theorems:
  * a compression bound is never zero on well-formed input sizes;
  * compressed output never exceeds the destination capacity;
  * decompressing a successful compression restores the input exactly
    (LZ4 whenever the destination capacity is at least the bound,
    bitshuffle whenever the input length is `n_elements * element_size`). -/
structure codec_lib_spec (lib : codec_lib) : Prop where
  lz4_bound_pos : ∀ n : Nat, 0 < lib.LZ4_compressBound n
  lz4_compress_le_cap : ∀ (src : List Nat) (cap : Nat),
    (lib.LZ4_compress_default src cap).length ≤ cap
  lz4_roundtrip : ∀ (src : List Nat) (cap : Nat),
    lib.LZ4_compressBound src.length ≤ cap →
    lib.LZ4_decompress_safe (lib.LZ4_compress_default src cap) src.length
      = some src
  bshuf_bound_pos : ∀ n es : Nat, 0 < es →
    0 < lib.bshuf_compress_lz4_bound n es
  bshuf_compress_le_bound : ∀ (src : List Nat) (n es : Nat)
    (out : List Nat), lib.bshuf_compress_lz4 src n es = some out →
    out.length ≤ lib.bshuf_compress_lz4_bound n es
  bshuf_compress_ok : ∀ (src : List Nat) (es : Nat), 0 < es →
    es ∣ src.length →
    ∃ out, lib.bshuf_compress_lz4 src (src.length / es) es = some out
  bshuf_roundtrip : ∀ (src : List Nat) (es : Nat) (out : List Nat),
    0 < es → es ∣ src.length →
    lib.bshuf_compress_lz4 src (src.length / es) es = some out →
    lib.bshuf_decompress_lz4 out (src.length / es) es
      = some (src, out.length)

/-- A concrete codec library satisfying the advertised contracts,
used to instantiate witnesses: compression is the identity. -/
def id_codec : codec_lib where
  LZ4_compressBound := fun n => n + 1
  LZ4_compress_default := fun src cap => if src.length ≤ cap then src else []
  LZ4_decompress_safe := fun src cap =>
    if src.length ≤ cap then some src else Option.none
  bshuf_compress_lz4_bound := fun n es => n * es + 1
  bshuf_compress_lz4 := fun src n es =>
    if src.length = n * es then some src else Option.none
  bshuf_decompress_lz4 := fun src n es =>
    if src.length = n * es then some (src, src.length) else Option.none

/-- `detector_config_t` (`dectris_utils.h`): the part-2 payload fields. -/
structure detector_config_t : Type where
  beam_center_x : double
  beam_center_y : double
  bit_depth_image : Int
  compression : compressor_t
  count_time : double
  countrate_correction_count_cutoff : Int
  description : String
  detector_distance : double
  detector_number : String
  frame_time : double
  nimages : Int
  ntrigger : Int
  omega_start : double
  omega_increment : double
  sensor_thickness : double
  software_version : String
  wavelength : double
  x_pixel_size : double
  x_pixels_in_detector : Int
  y_pixel_size : double
  y_pixels_in_detector : Int
deriving DecidableEq, Repr

namespace detector_config_t

/-- The `detector_config_t` default constructor (`dectris_utils.h`):
doubles to NaN, integers to -1, compression to `unknown`, strings empty. -/
def init : detector_config_t where
  beam_center_x := .nan
  beam_center_y := .nan
  bit_depth_image := -1
  compression := .unknown
  count_time := .nan
  countrate_correction_count_cutoff := -1
  description := ""
  detector_distance := .nan
  detector_number := ""
  frame_time := .nan
  nimages := -1
  ntrigger := -1
  omega_start := .nan
  omega_increment := .nan
  sensor_thickness := .nan
  software_version := ""
  wavelength := .nan
  x_pixel_size := .nan
  x_pixels_in_detector := -1
  y_pixel_size := .nan
  y_pixels_in_detector := -1

/-- `detector_config_t::reset` (`dectris_utils.h`).  Note: unlike the
default constructor, it sets `compression` to `none`, not `unknown`. -/
def reset (_self : detector_config_t) : detector_config_t :=
  { init with compression := .none }

/-- `detector_config_t::parse` (`dectris_utils.cpp`).  Field extraction
follows the source order.  The compression branch is transcribed exactly
as written: `"bslz4"` and `"lz4"` are mapped to their enum values, the
token `"none"` raises the "Supported values" error, and any other token
falls off the `if`/`else if` chain, leaving `compression` unchanged. -/
def parse (self : detector_config_t) (json : jval) :
    Except String detector_config_t := do
  let beam_center_x ← extract_simdjson_double json "beam_center_x"
  let beam_center_y ← extract_simdjson_double json "beam_center_y"
  let bit_depth_image ← extract_simdjson_int json "bit_depth_image"
  if bit_depth_image ≠ 32 then
    .error "Only 32-bit depth images are supported by bigpicture."
  else do
  let tmp_str ← extract_simdjson_string json "compression"
  let compression ←
    if tmp_str = "bslz4" then pure compressor_t.bslz4
    else if tmp_str = "lz4" then pure compressor_t.lz4
    else if tmp_str = "none" then
      Except.error "compression=none. Supported values are none, lz4, and bslz4."
    else pure self.compression
  let count_time ← extract_simdjson_double json "count_time"
  let countrate_correction_count_cutoff ←
    extract_simdjson_int json "countrate_correction_count_cutoff"
  let description ← extract_simdjson_string json "description"
  let detector_distance ← extract_simdjson_double json "detector_distance"
  let detector_number ← extract_simdjson_string json "detector_number"
  let frame_time ← extract_simdjson_double json "frame_time"
  let nimages ← extract_simdjson_int json "nimages"
  let ntrigger ← extract_simdjson_int json "ntrigger"
  let omega_start ← extract_simdjson_double json "omega_start"
  let omega_increment ← extract_simdjson_double json "omega_increment"
  let sensor_thickness ← extract_simdjson_double json "sensor_thickness"
  let software_version ← extract_simdjson_string json "software_version"
  let wavelength ← extract_simdjson_double json "wavelength"
  let x_pixel_size ← extract_simdjson_double json "x_pixel_size"
  let x_pixels_in_detector ← extract_simdjson_int json "x_pixels_in_detector"
  let y_pixel_size ← extract_simdjson_double json "y_pixel_size"
  let y_pixels_in_detector ← extract_simdjson_int json "y_pixels_in_detector"
  .ok { beam_center_x, beam_center_y, bit_depth_image, compression,
        count_time, countrate_correction_count_cutoff, description,
        detector_distance, detector_number, frame_time, nimages, ntrigger,
        omega_start, omega_increment, sensor_thickness, software_version,
        wavelength, x_pixel_size, x_pixels_in_detector, y_pixel_size,
        y_pixels_in_detector }

end detector_config_t

/-- `mask_t<T>` (`dectris_utils.h`), indexed by `sizeof(T)`; `data` holds
the mask's raw bytes. -/
structure mask_t (T_size : Nat) : Type where
  width : Nat
  height : Nat
  data : List Nat
deriving DecidableEq, Repr

namespace mask_t

/-- The `mask_t` default constructor: zero dimensions, no storage. -/
def init {es : Nat} : mask_t es := ⟨0, 0, []⟩

/-- `mask_t::reset()`: drop dimensions and storage. -/
def reset {es : Nat} (_self : mask_t es) : mask_t es := init

/-- `mask_t::reset(w, h)`: record dimensions and allocate `w*h` elements
(indeterminate contents, modelled zeroed). -/
def reset_wh {es : Nat} (_self : mask_t es) (w h : Nat) : mask_t es :=
  ⟨w, h, List.replicate (w * h * es) 0⟩

/-- `mask_t::n_bytes() = width * height * element_size()`. -/
def n_bytes {es : Nat} (self : mask_t es) : Nat :=
  self.width * self.height * es

end mask_t

/-- The `parse_state_t` of `dectris_global_data` (`dectris_utils.h`). -/
inductive dgd_parse_state_t : Type where
  | unknown : dgd_parse_state_t
  | part1 : dgd_parse_state_t
  | part2 : dgd_parse_state_t
  | part3 : dgd_parse_state_t
  | part4 : dgd_parse_state_t
  | part5 : dgd_parse_state_t
  | part6 : dgd_parse_state_t
  | part7 : dgd_parse_state_t
  | part8 : dgd_parse_state_t
  | appendix : dgd_parse_state_t
  | done : dgd_parse_state_t
deriving DecidableEq, Repr

/-- `dectris_global_data` (`dectris_utils.h`): the global-header parser's
state.  The simdjson `m_parser` member is modelled externally by the
parameter `J` of the parse functions. -/
structure dectris_global_data : Type where
  m_parse_state : dgd_parse_state_t
  m_using_header_appendix : Bool
  m_series_id : Int
  m_header_detail : header_detail_t
  m_config : detector_config_t
  m_flatfield : mask_t 4
  m_pixelmask : mask_t 4
  m_countrate_table : mask_t 4
  m_header_appendix : List Nat
deriving DecidableEq, Repr

namespace dectris_global_data

/-- The `dectris_global_data` default constructor (`dectris_utils.h`):
state `part1`, appendix flag off, series id -1, header detail unknown,
members default-constructed. -/
def init : dectris_global_data where
  m_parse_state := .part1
  m_using_header_appendix := false
  m_series_id := -1
  m_header_detail := .unknown
  m_config := detector_config_t.init
  m_flatfield := mask_t.init
  m_pixelmask := mask_t.init
  m_countrate_table := mask_t.init
  m_header_appendix := []

/-- `dectris_global_data::enable_header_appendix` (`dectris_utils.h`). -/
def enable_header_appendix (self : dectris_global_data) :
    dectris_global_data :=
  { self with m_using_header_appendix := true }

/-- `dectris_global_data::reset` (`dectris_utils.h`): re-initialize every
parsed field but deliberately keep `m_using_header_appendix` ("Don't
reset m_using_header_appendix, it's set by the config file"). -/
def reset (self : dectris_global_data) : dectris_global_data where
  m_parse_state := .part1
  m_using_header_appendix := self.m_using_header_appendix
  m_series_id := -1
  m_header_detail := .unknown
  m_config := self.m_config.reset
  m_flatfield := self.m_flatfield.reset
  m_pixelmask := self.m_pixelmask.reset
  m_countrate_table := self.m_countrate_table.reset
  m_header_appendix := []

/-- `dectris_global_data::parse_part1` (`dectris_utils.cpp`): validate
`htype`, capture the series id and the header detail. -/
def parse_part1 (J : List Nat → Except String jval)
    (self : dectris_global_data) (data : List Nat) :
    Except String dectris_global_data := do
  let record ← J data
  let _ ← validate_htype record "dheader-1.0"
  let series ←
    match jget_int record "series" with
    | .ok n => pure n
    | .error _ =>
      Except.error "The DCU did not provide a valid value for series in the global header."
  let header_detail_str ←
    match jget_string record "header_detail" with
    | .ok s => pure s
    | .error _ =>
      Except.error "The DCU did not provide a valid value for header_detail in the global header."
  let hd ←
    if header_detail_str = "all" then pure header_detail_t.all
    else if header_detail_str = "basic" then pure header_detail_t.basic
    else if header_detail_str = "none" then pure header_detail_t.none
    else Except.error "The DCU provided an unrecognized value for header_detail"
  .ok { self with m_series_id := series, m_header_detail := hd }

/-- `dectris_global_data::parse_part2` (`dectris_utils.cpp`): populate the
detector config from the part-2 JSON document. -/
def parse_part2 (J : List Nat → Except String jval)
    (self : dectris_global_data) (data : List Nat) :
    Except String dectris_global_data := do
  let record ← J data
  let cfg ← self.m_config.parse record
  .ok { self with m_config := cfg }

/-- Shared body of `parse_part3`/`parse_part5`/`parse_part7`
(`dectris_utils.cpp`): read `shape:[w,h]` and allocate the mask.  The
htype check is under `#ifndef NDEBUG` in the source and is omitted here
(release build). -/
def parse_shape_part (J : List Nat → Except String jval)
    (data : List Nat) (subject : String) (mask : mask_t 4) :
    Except String (mask_t 4) := do
  let record ← J data
  let width ←
    match jget_arr_int record "shape" 0 with
    | .ok n => pure n
    | .error _ =>
      Except.error ("The DCU did not provide a valid width for the " ++ subject)
  let height ←
    match jget_arr_int record "shape" 1 with
    | .ok n => pure n
    | .error _ =>
      Except.error ("The DCU did not provide a valid height for the " ++ subject)
  .ok (mask.reset_wh (size_t_of_int width) (size_t_of_int height))

/-- `dectris_global_data::parse_part3` (`dectris_utils.cpp`). -/
def parse_part3 (J : List Nat → Except String jval)
    (self : dectris_global_data) (data : List Nat) :
    Except String dectris_global_data := do
  let m ← parse_shape_part J data "flatfield." self.m_flatfield
  .ok { self with m_flatfield := m }

/-- `dectris_global_data::parse_part4` (`dectris_utils.cpp`): length-check
the flatfield blob, then copy it in. -/
def parse_part4 (_J : List Nat → Except String jval)
    (self : dectris_global_data) (data : List Nat) :
    Except String dectris_global_data :=
  if self.m_flatfield.n_bytes ≠ data.length then
    .error "Expected flatfield size (bytes) differs from actual"
  else
    .ok { self with m_flatfield := { self.m_flatfield with data := data } }

/-- `dectris_global_data::parse_part5` (`dectris_utils.cpp`). -/
def parse_part5 (J : List Nat → Except String jval)
    (self : dectris_global_data) (data : List Nat) :
    Except String dectris_global_data := do
  let m ← parse_shape_part J data "pixel mask." self.m_pixelmask
  .ok { self with m_pixelmask := m }

/-- `dectris_global_data::parse_part6` (`dectris_utils.cpp`): length-check
the pixel-mask blob, then copy it in. -/
def parse_part6 (_J : List Nat → Except String jval)
    (self : dectris_global_data) (data : List Nat) :
    Except String dectris_global_data :=
  if self.m_pixelmask.n_bytes ≠ data.length then
    .error "Expected pixel mask size (bytes) differs from actual"
  else
    .ok { self with m_pixelmask := { self.m_pixelmask with data := data } }

/-- `dectris_global_data::parse_part7` (`dectris_utils.cpp`). -/
def parse_part7 (J : List Nat → Except String jval)
    (self : dectris_global_data) (data : List Nat) :
    Except String dectris_global_data := do
  let m ← parse_shape_part J data "countrate table." self.m_countrate_table
  .ok { self with m_countrate_table := m }

/-- `dectris_global_data::parse_part8` (`dectris_utils.cpp`): length-check
the countrate-table blob, then copy it in. -/
def parse_part8 (_J : List Nat → Except String jval)
    (self : dectris_global_data) (data : List Nat) :
    Except String dectris_global_data :=
  if self.m_countrate_table.n_bytes ≠ data.length then
    .error "Expected countrate table size (bytes) differs from actual"
  else
    .ok { self with m_countrate_table :=
            { self.m_countrate_table with data := data } }

/-- `dectris_global_data::parse_appendix` (`dectris_utils.cpp`): store the
raw bytes. -/
def parse_appendix (_J : List Nat → Except String jval)
    (self : dectris_global_data) (data : List Nat) :
    Except String dectris_global_data :=
  .ok { self with m_header_appendix := data }

/-- The state-advancing switch of `dectris_global_data::parse`
(`dectris_utils.cpp`); the function's return value is computed from the
resulting state by the wrapper `parse` below. -/
def parse_step (J : List Nat → Except String jval)
    (self : dectris_global_data) (data : List Nat) :
    Except String dectris_global_data :=
  match self.m_parse_state with
    | .part1 => do
      let s ← self.parse_part1 J data
      if s.m_header_detail = .all ∨ s.m_header_detail = .basic then
        pure { s with m_parse_state := .part2 }
      else if s.m_header_detail = .none then
        Except.error "ERROR: incompatible DCU configuration; header detail is none; please set header_detail to all"
      else
        Except.error "Global data parser stuck in unknown state"
    | .part2 => do
      let s ← self.parse_part2 J data
      if s.m_header_detail = .basic then
        pure { s with m_parse_state :=
                 if s.m_using_header_appendix then .appendix else .done }
      else if s.m_header_detail = .all then
        pure { s with m_parse_state := .part3 }
      else
        Except.error "Global data parser stuck in unknown state"
    | .part3 => do
      let s ← self.parse_part3 J data
      pure { s with m_parse_state := .part4 }
    | .part4 => do
      let s ← self.parse_part4 J data
      pure { s with m_parse_state := .part5 }
    | .part5 => do
      let s ← self.parse_part5 J data
      pure { s with m_parse_state := .part6 }
    | .part6 => do
      let s ← self.parse_part6 J data
      pure { s with m_parse_state := .part7 }
    | .part7 => do
      let s ← self.parse_part7 J data
      pure { s with m_parse_state := .part8 }
    | .part8 => do
      let s ← self.parse_part8 J data
      pure { s with m_parse_state :=
               if s.m_using_header_appendix then .appendix else .done }
    | .appendix => do
      let s ← self.parse_appendix J data
      pure { s with m_parse_state := .done }
    | .done =>
      pure self.reset
    | .unknown =>
      Except.error "Global data parser stuck in unknown state"

/-- `dectris_global_data::parse` (`dectris_utils.cpp`): advance the
state machine by one message part and return the C function's return
value `m_parse_state == done`. -/
def parse (J : List Nat → Except String jval)
    (self : dectris_global_data) (data : List Nat) :
    Except String (dectris_global_data × Bool) := do
  let s ← parse_step J self data
  .ok (s, s.m_parse_state = .done)

end dectris_global_data

/-- The argument values `build_cbf_header` (`stream_to_cbf.cpp`) passes to
`snprintf` for the miniCBF header text, in source order.  Text formatting
itself is not modelled; each field records the value printed. -/
structure cbf_header_values : Type where
  description : String
  detector_number : String
  /-- `(int64_t)(config.x_pixel_size * 1E6)`. -/
  pixel_size_x : Int
  /-- `(int64_t)(config.y_pixel_size * 1E6)`. -/
  pixel_size_y : Int
  sensor_thickness : double
  count_time : double
  frame_time : double
  count_cutoff : Int
  wavelength : double
  detector_distance : double
  /-- `(int)config.beam_center_x`. -/
  beam_x : Int
  /-- `(int)config.beam_center_y`. -/
  beam_y : Int
  /-- `config.omega_start + ((double)(m_frame_id-1))*config.omega_increment`. -/
  start_angle : double
  angle_increment : double
deriving DecidableEq, Repr

/-- One call issued to the CBF library (modelled as an event log). -/
inductive cbf_op : Type where
  | new_datablock : String → cbf_op
  | new_category : String → cbf_op
  | new_column : String → cbf_op
  | set_value : String → cbf_op
  /-- `cbf_set_value(m_cbf, header_content)` for the formatted header. -/
  | set_value_header : cbf_header_values → cbf_op
  /-- `cbf_set_integerarray_wdims_fs(...)`: byte-offset compression,
  binary id, the pixel bytes, element size, signedness, element count,
  byte order, dimensions and padding. -/
  | set_integerarray_wdims_fs : Nat → Int → List Nat → Nat → Int → Int →
      String → Int → Int → Int → Nat → cbf_op
deriving DecidableEq, Repr

/-- The `parse_state_t` of `stream_to_cbf` (`stream_to_cbf.h`). -/
inductive scb_parse_state_t : Type where
  | error : scb_parse_state_t
  | global_header : scb_parse_state_t
  | new_frame : scb_parse_state_t
  | midframe_part2 : scb_parse_state_t
  | midframe_part3 : scb_parse_state_t
  | midframe_part4 : scb_parse_state_t
  | midframe_appendix : scb_parse_state_t
deriving DecidableEq, Repr

/-- `stream_to_cbf` (`stream_to_cbf.h`): the per-series state machine.
`m_cbf` is the log of CBF-library calls made on the current handle;
`m_written` is a ghost log of the files flushed so far (file name paired
with the handle's call log at flush time). -/
structure stream_to_cbf : Type where
  m_appendix : List Nat
  m_buffer : unique_buffer
  m_cbf : List cbf_op
  m_frame_id : Int
  m_global : dectris_global_data
  m_parse_state : scb_parse_state_t
  m_using_image_appendix : Bool
  m_written : List (String × List cbf_op)
deriving DecidableEq, Repr

namespace stream_to_cbf

/-- The `stream_to_cbf(bool, bool)` constructor (`stream_to_cbf.h`): a
fresh CBF handle, frame id -1, state `global_header`; the header-appendix
flag is forwarded into the global-data parser (the forwarding constructor
of `dectris_global_data` is not under `src/`; it is modelled with
`enable_header_appendix`, the member the flag controls). -/
def init (using_header_appendix using_image_appendix : Bool) :
    stream_to_cbf where
  m_appendix := []
  m_buffer := ⟨0, []⟩
  m_cbf := []
  m_frame_id := -1
  m_global :=
    if using_header_appendix then
      dectris_global_data.init.enable_header_appendix
    else
      dectris_global_data.init
  m_parse_state := .global_header
  m_using_image_appendix := using_image_appendix
  m_written := []

/-- `stream_to_cbf::reset` (`stream_to_cbf.h`): clear the appendix,
release the buffer, reset frame id and global data, return to
`global_header`, and swap in a fresh CBF handle. -/
def reset (self : stream_to_cbf) : stream_to_cbf where
  m_appendix := []
  m_buffer := self.m_buffer.reset
  m_cbf := []
  m_frame_id := -1
  m_global := self.m_global.reset
  m_parse_state := .global_header
  m_using_image_appendix := self.m_using_image_appendix
  m_written := self.m_written

/-- `stream_to_cbf::parse_part1_or_series_end` (`stream_to_cbf.cpp`).
Returns `true` for a series-end message, `false` for a frame part 1
(after recording the frame id and opening a datablock), and an error for
any other htype or a series-id mismatch. -/
def parse_part1_or_series_end (J : List Nat → Except String jval)
    (self : stream_to_cbf) (data : List Nat) :
    Except String (Bool × stream_to_cbf) := do
  let json ← J data
  let htype ←
    match jget_string json "htype" with
    | .ok s => pure s
    | .error _ => Except.error "simdjson failed while parsing attribute: htype"
  if htype = "dseries_end-1.0" then do
    let series_id ←
      match jget_int json "series" with
      | .ok n => pure n
      | .error _ => Except.error "simdjson failed while parsing attribute: series"
    if series_id ≠ self.m_global.m_series_id then
      Except.error "Invalid series end message: series id mismatch"
    else
      .ok (true, self)
  else if htype ≠ "dimage-1.0" then
    Except.error "Expected either a dimage-1.0 or dseries_end-1.0 message"
  else do
    let frame ←
      match jget_int json "frame" with
      | .ok n => pure n
      | .error _ => Except.error "simdjson failed while parsing attribute: frame"
    let self := { self with m_frame_id := frame }
    let series_id ←
      match jget_int json "series" with
      | .ok n => pure n
      | .error _ => Except.error "simdjson failed while parsing attribute: series"
    if series_id ≠ self.m_global.m_series_id then
      Except.error "Invalid frame part 1 message: series id mismatch"
    else
      .ok (false, { self with
                    m_cbf := self.m_cbf ++ [cbf_op.new_datablock "image"] })

/-- The values `build_cbf_header` (`stream_to_cbf.cpp`) passes to
`snprintf`, in source order; the start angle is
`config.omega_start + ((double)(m_frame_id-1))*config.omega_increment`. -/
def cbf_header_values_of (config : detector_config_t) (frame_id : Int) :
    cbf_header_values where
  description := config.description
  detector_number := config.detector_number
  pixel_size_x := (config.x_pixel_size * double.val 1000000).toIntTrunc
  pixel_size_y := (config.y_pixel_size * double.val 1000000).toIntTrunc
  sensor_thickness := config.sensor_thickness
  count_time := config.count_time
  frame_time := config.frame_time
  count_cutoff := config.countrate_correction_count_cutoff
  wavelength := config.wavelength
  detector_distance := config.detector_distance
  beam_x := config.beam_center_x.toIntTrunc
  beam_y := config.beam_center_y.toIntTrunc
  start_angle := config.omega_start +
    double.ofInt (frame_id - 1) * config.omega_increment
  angle_increment := config.omega_increment

/-- The CBF calls `build_cbf_header` (`stream_to_cbf.cpp`) issues, with
the values passed to `snprintf` recorded in `set_value_header`. -/
def cbf_header_ops (config : detector_config_t) (frame_id : Int) :
    List cbf_op :=
  [ .new_datablock "image_1",
    .new_category "array_data",
    .new_column "header_convention",
    .set_value "SLS_1.0",
    .new_column "header_contents",
    .set_value_header (cbf_header_values_of config frame_id) ]

/-- `stream_to_cbf::build_cbf_header` (`stream_to_cbf.cpp`). -/
def build_cbf_header (self : stream_to_cbf) : stream_to_cbf :=
  { self with m_cbf := self.m_cbf ++
      cbf_header_ops self.m_global.m_config self.m_frame_id }

/-- `stream_to_cbf::build_cbf_data` (`stream_to_cbf.cpp`):
`cbf_set_integerarray_wdims_fs` with byte-offset compression (modelled by
tag 0), binary id 1, element size `sizeof(int) = 4`, signed,
`x_pixels * y_pixels` elements, little endian, dimensions `(x, y, 0)`,
padding 0. -/
def build_cbf_data (self : stream_to_cbf) : stream_to_cbf :=
  let config := self.m_global.m_config
  { self with m_cbf := self.m_cbf ++
      [ .new_category "array_data",
        .new_column "data",
        .set_integerarray_wdims_fs 0 1 self.m_buffer.m_data 4 1
          (config.x_pixels_in_detector * config.y_pixels_in_detector)
          "little_endian"
          config.x_pixels_in_detector config.y_pixels_in_detector 0 0 ] }

/-- `stream_to_cbf::parse_part2` (`stream_to_cbf.cpp`): nothing to do in
release builds (the htype check is under `#ifndef NDEBUG`). -/
def parse_part2 (_J : List Nat → Except String jval)
    (self : stream_to_cbf) (_data : List Nat) :
    Except String stream_to_cbf :=
  .ok self

/-- `stream_to_cbf::parse_part3` (`stream_to_cbf.cpp`): decode the pixel
payload into the frame buffer with the series' configured codec (the
element-size argument keeps its default of 4). -/
def parse_part3 (lib : codec_lib) (self : stream_to_cbf)
    (data : List Nat) : Except String stream_to_cbf := do
  let buf ← self.m_buffer.decode lib self.m_global.m_config.compression data
  .ok { self with m_buffer := buf }

/-- `stream_to_cbf::parse_part4` (`stream_to_cbf.cpp`): nothing to do in
release builds. -/
def parse_part4 (_J : List Nat → Except String jval)
    (self : stream_to_cbf) (_data : List Nat) :
    Except String stream_to_cbf :=
  .ok self

/-- `stream_to_cbf::parse_appendix` (`stream_to_cbf.cpp`): store the raw
bytes. -/
def parse_appendix (self : stream_to_cbf) (data : List Nat) :
    stream_to_cbf :=
  { self with m_appendix := data }

/-- `stream_to_cbf::flush` (`stream_to_cbf.cpp`): write the current CBF
handle to `<series>-<frame>.cbf`.  Filesystem / libcbf write failures are
outside this model; the write is recorded in the ghost log. -/
def flush (self : stream_to_cbf) : stream_to_cbf :=
  let filename :=
    toString self.m_global.m_series_id ++ "-" ++
    toString self.m_frame_id ++ ".cbf"
  { self with m_written := self.m_written ++ [(filename, self.m_cbf)] }

/-- `stream_to_cbf::parse` (`stream_to_cbf.cpp`): the top-level state
machine.  Returns the new state paired with `received_series_end`. -/
def parse (lib : codec_lib) (J : List Nat → Except String jval)
    (self : stream_to_cbf) (data : List Nat) :
    Except String (stream_to_cbf × Bool) :=
  match self.m_parse_state with
  | .global_header => do
    let (g, finished) ← self.m_global.parse J data
    let self := { self with m_global := g }
    if finished then
      .ok ({ self with
             m_parse_state := .new_frame,
             m_buffer := self.m_buffer.resize (size_t_of_int
               (4 * g.m_config.x_pixels_in_detector *
                g.m_config.y_pixels_in_detector)) }, false)
    else
      .ok (self, false)
  | .new_frame => do
    let (is_end, s) ← self.parse_part1_or_series_end J data
    if is_end then
      .ok (s.reset, true)
    else
      .ok ({ s.build_cbf_header with m_parse_state := .midframe_part2 },
           false)
  | .midframe_part2 => do
    let s ← self.parse_part2 J data
    .ok ({ s with m_parse_state := .midframe_part3 }, false)
  | .midframe_part3 => do
    let s ← self.parse_part3 lib data
    .ok ({ s.build_cbf_data with m_parse_state := .midframe_part4 }, false)
  | .midframe_part4 => do
    let s ← self.parse_part4 J data
    if s.m_using_image_appendix then
      .ok ({ s with m_parse_state := .midframe_appendix }, false)
    else
      .ok ({ s.flush with m_parse_state := .new_frame }, false)
  | .midframe_appendix =>
    .ok ({ (self.parse_appendix data).flush with
           m_parse_state := .new_frame }, false)
  | .error =>
    -- The C switch has no case for `error`; release builds fall through
    -- the `default: assert(false)` arm and return with no state change.
    .ok (self, false)

end stream_to_cbf

/-- Feed a sequence of message parts to the global-header parser,
collecting each call's return value (used to state sequencing claims). -/
def parse_seq (J : List Nat → Except String jval)
    (s : dectris_global_data) :
    List (List Nat) → Except String (dectris_global_data × List Bool)
  | [] => .ok (s, [])
  | m :: ms => do
    let (s', b) ← s.parse J m
    let (s'', bs) ← parse_seq J s' ms
    .ok (s'', b :: bs)

/-- A freshly constructed global-header parser with the header-appendix
expectation latched to `uha` (the configuration-driven
`enable_header_appendix` call made at startup). -/
def dgd_start (uha : Bool) : dectris_global_data :=
  if uha then dectris_global_data.init.enable_header_appendix
  else dectris_global_data.init

/-- The states of the global-header parser that lie strictly after a
successful part-2 parse on every path of the state machine. -/
def dgd_past_part2 : dgd_parse_state_t → Prop
  | .part3 => True
  | .part4 => True
  | .part5 => True
  | .part6 => True
  | .part7 => True
  | .part8 => True
  | .appendix => True
  | .done => True
  | _ => False

/-- Invariant of the global-header parser: past part 2, the detector
config records a 32-bit image depth (part-2 parsing enforces it). -/
def dgd_inv (g : dectris_global_data) : Prop :=
  dgd_past_part2 g.m_parse_state → g.m_config.bit_depth_image = 32

/-- The states of a `stream_to_cbf` parser reachable from a freshly
constructed one by successful `parse` calls. -/
inductive stream_reachable (lib : codec_lib)
    (J : List Nat → Except String jval) (uha uia : Bool) :
    stream_to_cbf → Prop where
  | start : stream_reachable lib J uha uia (stream_to_cbf.init uha uia)
  | step {s : stream_to_cbf} {m : List Nat} {s' : stream_to_cbf} {b : Bool} :
      stream_reachable lib J uha uia s →
      stream_to_cbf.parse lib J s m = .ok (s', b) →
      stream_reachable lib J uha uia s'

/-- A part-2 detector-config JSON document used by concrete witnesses
(compression `lz4`, 32-bit depth, a 4x4 detector, omega 0 + 90/frame). -/
def wit_cfg_obj : jval := .jobj
  [ ("beam_center_x", .jint 2)
  , ("beam_center_y", .jint 3)
  , ("bit_depth_image", .jint 32)
  , ("compression", .jstr "lz4")
  , ("count_time", .jint 1)
  , ("countrate_correction_count_cutoff", .jint 765063)
  , ("description", .jstr "TESTDET")
  , ("detector_distance", .jint 125)
  , ("detector_number", .jstr "T-1")
  , ("frame_time", .jint 1)
  , ("nimages", .jint 1)
  , ("ntrigger", .jint 1)
  , ("omega_start", .jint 0)
  , ("omega_increment", .jint 90)
  , ("sensor_thickness", .jint 1)
  , ("software_version", .jstr "1.8.0")
  , ("wavelength", .jint 1)
  , ("x_pixel_size", .jint 1)
  , ("x_pixels_in_detector", .jint 4)
  , ("y_pixel_size", .jint 1)
  , ("y_pixels_in_detector", .jint 4)
  ]

/-- A part-2 config document identical to `wit_cfg_obj` except for the
compression token. -/
def wit_cfg_obj_comp (comp : String) : jval := .jobj
  [ ("beam_center_x", .jint 2)
  , ("beam_center_y", .jint 3)
  , ("bit_depth_image", .jint 32)
  , ("compression", .jstr comp)
  , ("count_time", .jint 1)
  , ("countrate_correction_count_cutoff", .jint 765063)
  , ("description", .jstr "TESTDET")
  , ("detector_distance", .jint 125)
  , ("detector_number", .jstr "T-1")
  , ("frame_time", .jint 1)
  , ("nimages", .jint 1)
  , ("ntrigger", .jint 1)
  , ("omega_start", .jint 0)
  , ("omega_increment", .jint 90)
  , ("sensor_thickness", .jint 1)
  , ("software_version", .jstr "1.8.0")
  , ("wavelength", .jint 1)
  , ("x_pixel_size", .jint 1)
  , ("x_pixels_in_detector", .jint 4)
  , ("y_pixel_size", .jint 1)
  , ("y_pixels_in_detector", .jint 4)
  ]

/-- The detector config that parsing `wit_cfg_obj` produces. -/
def wit_cfg : detector_config_t where
  beam_center_x := .val 2
  beam_center_y := .val 3
  bit_depth_image := 32
  compression := .lz4
  count_time := .val 1
  countrate_correction_count_cutoff := 765063
  description := "TESTDET"
  detector_distance := .val 125
  detector_number := "T-1"
  frame_time := .val 1
  nimages := 1
  ntrigger := 1
  omega_start := .val 0
  omega_increment := .val 90
  sensor_thickness := .val 1
  software_version := "1.8.0"
  wavelength := .val 1
  x_pixel_size := .val 1
  x_pixels_in_detector := 4
  y_pixel_size := .val 1
  y_pixels_in_detector := 4

/-- A global-header part-1 document with `header_detail = basic`. -/
def wit_hdr_basic : jval := .jobj
  [ ("htype", .jstr "dheader-1.0")
  , ("series", .jint 1)
  , ("header_detail", .jstr "basic") ]

/-- A global-header part-1 document with `header_detail = all`. -/
def wit_hdr_all : jval := .jobj
  [ ("htype", .jstr "dheader-1.0")
  , ("series", .jint 1)
  , ("header_detail", .jstr "all") ]

/-- A mask shape document (`shape:[4,4]`) for parts 3/5/7. -/
def wit_shape_obj : jval := .jobj
  [ ("htype", .jstr "dflatfield-1.0")
  , ("shape", .jarr [.jint 4, .jint 4])
  , ("type", .jstr "float32") ]

/-- A frame part-1 document for series 1, frame 3. -/
def wit_frame1_obj : jval := .jobj
  [ ("htype", .jstr "dimage-1.0")
  , ("series", .jint 1)
  , ("frame", .jint 3) ]

/-- A series-end document carrying the wrong series id (2). -/
def wit_series_end_bad : jval := .jobj
  [ ("htype", .jstr "dseries_end-1.0")
  , ("series", .jint 2) ]

/-- The simdjson model used by concrete witnesses: a fixed byte-string to
document table.  Raw blob parts are never passed to it. -/
def wit_J : List Nat → Except String jval := fun b =>
  if b = [1] then .ok wit_hdr_basic
  else if b = [11] then .ok wit_hdr_all
  else if b = [2] then .ok wit_cfg_obj
  else if b = [3] then .ok wit_shape_obj
  else if b = [4] then .ok wit_frame1_obj
  else if b = [5] then .ok wit_series_end_bad
  else .error "malformed json"

/-- A 64-byte raw blob (matches a 4x4 mask of 4-byte elements). -/
def wit_blob : List Nat := List.replicate 64 7

/-- The parser state after feeding the part-1 message `[1]` (basic header,
series 1) to a freshly constructed `stream_to_cbf`. -/
def c7_s1 : stream_to_cbf :=
  { stream_to_cbf.init false false with
    m_global := { dectris_global_data.init with
                  m_series_id := 1,
                  m_header_detail := .basic,
                  m_parse_state := .part2 } }

/-- The parser state after additionally feeding the part-2 config message
`[2]`: the global header completes and the frame decode buffer is sized
to 4 * 4 * 4 = 64 bytes. -/
def c7_s2 : stream_to_cbf :=
  { c7_s1 with
    m_parse_state := .new_frame,
    m_global := { c7_s1.m_global with
                  m_config := wit_cfg,
                  m_parse_state := .done },
    m_buffer := ⟨64, List.replicate 64 0⟩ }

/-! ## Theorems -/

theorem id_codec_spec : codec_lib_spec id_codec := by
  constructor
  · intro n; simp [id_codec]
  · intro src cap
    simp only [id_codec]
    split
    · assumption
    · simp
  · intro src cap hcap
    simp only [id_codec] at *
    have hle : src.length ≤ cap := by omega
    simp [hle]
  · intro n es _; simp [id_codec]
  · intro src n es out h
    simp only [id_codec] at h
    split at h
    · cases h
      have hb : id_codec.bshuf_compress_lz4_bound n es = n * es + 1 := rfl
      omega
    · cases h
  · intro src es hes hdvd
    refine ⟨src, ?_⟩
    simp only [id_codec]
    rw [if_pos (Nat.div_mul_cancel hdvd).symm]
  · intro src es out hes hdvd h
    simp only [id_codec] at *
    split at h
    · cases h
      rw [if_pos (by assumption)]
    · cases h

theorem unique_buffer.reset_m_len (buf : unique_buffer) (n : Nat) :
    (buf.reset n).m_len = n := by
  unfold unique_buffer.reset
  split
  · simp_all
  · split <;> simp_all

/-- C1: the claim states that part-2 parsing accepts each of the canonical
compression tokens "none", "lz4" and "bslz4" and errors on any other
token.  Evaluating `detector_config_t::parse` shows the opposite on two
of the four cases: the token "none" raises the "Supported values" error,
and an unrecognized token ("zstd") is accepted silently, leaving the
compression field at its previous value (`unknown` for a fresh config);
"lz4" and "bslz4" behave as claimed. -/
theorem C1_compression_token_eval :
    detector_config_t.parse detector_config_t.init (wit_cfg_obj_comp "none")
      = .error "compression=none. Supported values are none, lz4, and bslz4."
    ∧ (detector_config_t.parse detector_config_t.init
        (wit_cfg_obj_comp "zstd")).map detector_config_t.compression
      = .ok compressor_t.unknown
    ∧ (detector_config_t.parse detector_config_t.init
        (wit_cfg_obj_comp "lz4")).map detector_config_t.compression
      = .ok compressor_t.lz4
    ∧ (detector_config_t.parse detector_config_t.init
        (wit_cfg_obj_comp "bslz4")).map detector_config_t.compression
      = .ok compressor_t.bslz4 :=
  ⟨rfl, rfl, rfl, rfl⟩

/-- C9 counterexample: resetting a freshly constructed global-header
parser does not return it to its default-constructed value, because
`detector_config_t::reset` sets `compression` to `none` while the default
constructor sets it to `unknown`. -/
theorem C9_counterexample :
    dectris_global_data.reset dectris_global_data.init
      ≠ dectris_global_data.init := by
  intro h
  have hc := congrArg
    (fun g => g.m_config.compression) h
  simp [dectris_global_data.reset, dectris_global_data.init,
        detector_config_t.reset, detector_config_t.init] at hc

/-- C9 (amended): `dectris_global_data::reset` restores the parse state to
`part1`, the series id to -1, the header detail to `unknown`, the three
masks and the appendix text to their default-constructed values, and
leaves `m_using_header_appendix` unchanged; the detector config is reset
to its default-constructed value except that `compression` is set to
`none` instead of the constructor's `unknown`. -/
theorem C9_reset_amended (g : dectris_global_data) :
    g.reset = { dectris_global_data.init with
                m_using_header_appendix := g.m_using_header_appendix,
                m_config := { detector_config_t.init with
                              compression := compressor_t.none } } :=
  rfl

/-- C10: calling the global-header parser while it is already in the
`done` state parses nothing: whatever the message bytes and however the
JSON library would read them, the parser resets itself (state back to
`part1`) and returns false. -/
theorem C10_done_state_drops_message (J : List Nat → Except String jval)
    (s : dectris_global_data) (m : List Nat)
    (h : s.m_parse_state = .done) :
    s.parse J m = .ok (s.reset, false) := by
  unfold dectris_global_data.parse dectris_global_data.parse_step
  rw [h]
  rfl

theorem C10_witness :
    dectris_global_data.parse wit_J
      { dectris_global_data.init with m_parse_state := .done } [99]
      = .ok ({ dectris_global_data.init with
               m_parse_state := dgd_parse_state_t.done }.reset, false) :=
  C10_done_state_drops_message wit_J _ [99] rfl

/-- C4 counterexample: with the `none` codec, `unique_buffer::encode`
performs no growth at all; on a zero-length buffer with a 1-byte source
it copies out of bounds, leaves `size()` at 0, and returns 1, so the
returned count exceeds the buffer's length after the call, contradicting
the claim as stated. -/
theorem C4_counterexample :
    unique_buffer.encode id_codec ⟨0, []⟩ compressor_t.none [42] 4
      = .ok (⟨0, [42]⟩, 1)
    ∧ ¬ ((1 : Nat) ≤ (0 : Nat)) :=
  ⟨rfl, by decide⟩

/-- C4 (amended): for the `lz4` and `bslz4` codecs, `encode` grows the
buffer to at least the codec's upper bound before encoding whenever it is
smaller (so the bound never exceeds the final `size()`), and the returned
compressed byte count is at most `size()` after the call, granted the
compression libraries' advertised contracts.  For the `none` codec,
`encode` copies the source in place without resizing and returns
`src_len`, which exceeds `size()` whenever the buffer is smaller than the
source. -/
theorem C4_encode_amended (lib : codec_lib) (hspec : codec_lib_spec lib)
    (buf : unique_buffer) (src : List Nat) (es : Nat) :
    (∀ buf' count,
       unique_buffer.encode lib buf compressor_t.lz4 src es
         = .ok (buf', count) →
       lib.LZ4_compressBound src.length ≤ buf'.m_len
       ∧ count ≤ buf'.m_len) ∧
    (∀ buf' count,
       unique_buffer.encode lib buf compressor_t.bslz4 src es
         = .ok (buf', count) →
       lib.bshuf_compress_lz4_bound (src.length / es) es ≤ buf'.m_len
       ∧ count ≤ buf'.m_len) ∧
    unique_buffer.encode lib buf compressor_t.none src es
      = .ok (⟨buf.m_len, memcpy_bytes buf.m_data src⟩, src.length) := by
  refine ⟨?_, ?_, rfl⟩
  · intro buf' count h
    unfold unique_buffer.encode unique_buffer.lz4_encode at h
    have hub : ¬ (lib.LZ4_compressBound src.length = 0) :=
      Nat.pos_iff_ne_zero.mp (hspec.lz4_bound_pos _)
    rw [if_neg hub] at h
    simp only [Except.ok.injEq, Prod.mk.injEq] at h
    obtain ⟨h1, h2⟩ := h
    subst h1
    subst h2
    constructor
    · by_cases hlt :
        buf.m_len < lib.LZ4_compressBound src.length
      · rw [if_pos hlt]
        simp [unique_buffer.reset_m_len]
      · rw [if_neg hlt]
        dsimp only
        omega
    · exact hspec.lz4_compress_le_cap src _
  · intro buf' count h
    unfold unique_buffer.encode unique_buffer.bslz4_encode at h
    have hub : ¬ (lib.bshuf_compress_lz4_bound (src.length / es) es = 0) ∨
        es = 0 := by
      by_cases hes : es = 0
      · exact Or.inr hes
      · exact Or.inl (Nat.pos_iff_ne_zero.mp
          (hspec.bshuf_bound_pos _ _ (Nat.pos_of_ne_zero hes)))
    rcases hub with hub | hes0
    · rw [if_neg hub] at h
      rcases hc : lib.bshuf_compress_lz4 src (src.length / es) es with _ | comp
      · rw [hc] at h
        exact Except.noConfusion h
      · rw [hc] at h
        simp only [Except.ok.injEq, Prod.mk.injEq] at h
        obtain ⟨h1, h2⟩ := h
        subst h1
        subst h2
        constructor
        · by_cases hlt :
            buf.m_len < lib.bshuf_compress_lz4_bound (src.length / es) es
          · rw [if_pos hlt]
            simp [unique_buffer.reset_m_len]
          · rw [if_neg hlt]
            dsimp only
            omega
        · exact le_trans (hspec.bshuf_compress_le_bound _ _ _ _ hc)
            (by
              by_cases hlt :
                buf.m_len < lib.bshuf_compress_lz4_bound (src.length / es) es
              · rw [if_pos hlt]
                simp [unique_buffer.reset_m_len]
              · rw [if_neg hlt]
                dsimp only
                omega)
    · -- `es = 0`: the bound may legitimately be 0 and encode then errors,
      -- so the conclusion holds vacuously or via the same route.
      by_cases hb0 : lib.bshuf_compress_lz4_bound (src.length / es) es = 0
      · rw [if_pos hb0] at h
        exact Except.noConfusion h
      · rw [if_neg hb0] at h
        rcases hc : lib.bshuf_compress_lz4 src (src.length / es) es with _ | comp
        · rw [hc] at h
          exact Except.noConfusion h
        · rw [hc] at h
          simp only [Except.ok.injEq, Prod.mk.injEq] at h
          obtain ⟨h1, h2⟩ := h
          subst h1
          subst h2
          constructor
          · by_cases hlt :
              buf.m_len < lib.bshuf_compress_lz4_bound (src.length / es) es
            · rw [if_pos hlt]
              simp [unique_buffer.reset_m_len]
            · rw [if_neg hlt]
              dsimp only
              omega
          · exact le_trans (hspec.bshuf_compress_le_bound _ _ _ _ hc)
              (by
                by_cases hlt :
                  buf.m_len < lib.bshuf_compress_lz4_bound (src.length / es) es
                · rw [if_pos hlt]
                  simp [unique_buffer.reset_m_len]
                · rw [if_neg hlt]
                  dsimp only
                  omega)

/-- C2: for every codec among none/lz4/bslz4 and every byte sequence `b`
whose length is a multiple of the element size, decoding the result of
encoding `b` (the encode buffer sized to `b`'s length, the decode buffer
likewise) yields exactly `b`, granted the compression libraries'
advertised round-trip contracts. -/
theorem C2_codec_roundtrip (lib : codec_lib) (hspec : codec_lib_spec lib)
    (codec : compressor_t)
    (hcodec : codec = compressor_t.none ∨ codec = compressor_t.lz4 ∨
              codec = compressor_t.bslz4)
    (b : List Nat) (es : Nat) (hes : 0 < es) (hdvd : es ∣ b.length)
    (encbuf : unique_buffer) (hlen : encbuf.m_len = b.length) :
    ∃ outbuf count,
      unique_buffer.encode lib encbuf codec b es = .ok (outbuf, count) ∧
      unique_buffer.decode lib ⟨b.length, List.replicate b.length 0⟩ codec
        (outbuf.m_data.take count) es = .ok ⟨b.length, b⟩ := by
  rcases hcodec with rfl | rfl | rfl
  · -- codec `none`: both directions are memcpy
    refine ⟨⟨encbuf.m_len, memcpy_bytes encbuf.m_data b⟩, b.length, rfl, ?_⟩
    unfold unique_buffer.decode
    dsimp only
    simp [memcpy_bytes, List.take_left]
  · -- codec `lz4`
    have hub : ¬ (lib.LZ4_compressBound b.length = 0) :=
      Nat.pos_iff_ne_zero.mp (hspec.lz4_bound_pos _)
    set B := if encbuf.m_len < lib.LZ4_compressBound b.length
             then encbuf.reset (lib.LZ4_compressBound b.length)
             else encbuf with hB
    have hBlen : lib.LZ4_compressBound b.length ≤ B.m_len := by
      rw [hB]
      by_cases hlt : encbuf.m_len < lib.LZ4_compressBound b.length
      · rw [if_pos hlt, unique_buffer.reset_m_len]
      · rw [if_neg hlt]; omega
    refine ⟨⟨B.m_len,
             memcpy_bytes B.m_data (lib.LZ4_compress_default b B.m_len)⟩,
            (lib.LZ4_compress_default b B.m_len).length, ?_, ?_⟩
    · unfold unique_buffer.encode unique_buffer.lz4_encode
      dsimp only
      rw [if_neg hub]
    · have htake :
        (memcpy_bytes B.m_data
          (lib.LZ4_compress_default b B.m_len)).take
            (lib.LZ4_compress_default b B.m_len).length
          = lib.LZ4_compress_default b B.m_len := by
        simp [memcpy_bytes, List.take_left]
      unfold unique_buffer.decode unique_buffer.lz4_decode
      dsimp only
      rw [htake, hspec.lz4_roundtrip b B.m_len hBlen]
      simp [memcpy_bytes]
  · -- codec `bslz4`
    have hbound : ¬ (lib.bshuf_compress_lz4_bound (b.length / es) es = 0) :=
      Nat.pos_iff_ne_zero.mp (hspec.bshuf_bound_pos _ _ hes)
    obtain ⟨comp, hcomp⟩ := hspec.bshuf_compress_ok b es hes hdvd
    set B := if encbuf.m_len < lib.bshuf_compress_lz4_bound (b.length / es) es
             then encbuf.reset (lib.bshuf_compress_lz4_bound (b.length / es) es)
             else encbuf with hB
    refine ⟨⟨B.m_len, memcpy_bytes B.m_data comp⟩, comp.length, ?_, ?_⟩
    · unfold unique_buffer.encode unique_buffer.bslz4_encode
      dsimp only
      rw [if_neg hbound, hcomp]
    · have htake :
        (memcpy_bytes B.m_data comp).take comp.length = comp := by
        simp [memcpy_bytes, List.take_left]
      unfold unique_buffer.decode unique_buffer.bslz4_decode
      dsimp only
      rw [htake, hspec.bshuf_roundtrip b es comp hes hdvd hcomp]
      simp [memcpy_bytes]

theorem C2_witness :
    ∃ outbuf count,
      unique_buffer.encode id_codec ⟨4, [0, 0, 0, 0]⟩ compressor_t.lz4
        [1, 2, 3, 4] 4 = .ok (outbuf, count) ∧
      unique_buffer.decode id_codec ⟨4, List.replicate 4 0⟩ compressor_t.lz4
        (outbuf.m_data.take count) 4 = .ok ⟨4, [1, 2, 3, 4]⟩ :=
  C2_codec_roundtrip id_codec id_codec_spec compressor_t.lz4
    (Or.inr (Or.inl rfl)) [1, 2, 3, 4] 4 (by decide) (by decide)
    ⟨4, [0, 0, 0, 0]⟩ rfl

theorem C4_witness :
    ((∀ buf' count,
       unique_buffer.encode id_codec ⟨0, []⟩ compressor_t.lz4 [1, 2, 3, 4] 4
         = .ok (buf', count) →
       id_codec.LZ4_compressBound 4 ≤ buf'.m_len ∧ count ≤ buf'.m_len) ∧
    (∀ buf' count,
       unique_buffer.encode id_codec ⟨0, []⟩ compressor_t.bslz4 [1, 2, 3, 4] 4
         = .ok (buf', count) →
       id_codec.bshuf_compress_lz4_bound 1 4 ≤ buf'.m_len
       ∧ count ≤ buf'.m_len) ∧
    unique_buffer.encode id_codec ⟨0, []⟩ compressor_t.none [1, 2, 3, 4] 4
      = .ok (⟨0, memcpy_bytes [] [1, 2, 3, 4]⟩, 4)) :=
  C4_encode_amended id_codec id_codec_spec ⟨0, []⟩ [1, 2, 3, 4] 4

/-- C3: the global-header parser's `parse` returns true exactly when the
state became `done` (first conjunct, for every single call).  With
`header_detail=basic` the accepted sequence is part 1, part 2, then the
appendix part exactly when the appendix flag is enabled; with
`header_detail=all` it is parts 1 through 8 then the optional appendix:
each such run returns false on every part but the last, returns true on
the last, and ends in the `done` state (second and third conjuncts, for
both values of the appendix flag). -/
theorem C3_global_header_sequencing
    (J : List Nat → Except String jval) (uha : Bool)
    (m1b m1a m2 m3 m4 m5 m6 m7 m8 mapp : List Nat)
    (v1b v1a v2 v3 v5 v7 : jval) (sid w3 h3 w5 h5 w7 h7 : Int)
    (cfg2 : detector_config_t)
    (hJ1b : J m1b = .ok v1b)
    (hht1b : jget_string v1b "htype" = .ok "dheader-1.0")
    (hsid1b : jget_int v1b "series" = .ok sid)
    (hdet1b : jget_string v1b "header_detail" = .ok "basic")
    (hJ1a : J m1a = .ok v1a)
    (hht1a : jget_string v1a "htype" = .ok "dheader-1.0")
    (hsid1a : jget_int v1a "series" = .ok sid)
    (hdet1a : jget_string v1a "header_detail" = .ok "all")
    (hJ2 : J m2 = .ok v2)
    (hcfg : detector_config_t.parse detector_config_t.init v2 = .ok cfg2)
    (hJ3 : J m3 = .ok v3)
    (hw3 : jget_arr_int v3 "shape" 0 = .ok w3)
    (hh3 : jget_arr_int v3 "shape" 1 = .ok h3)
    (hlen4 : m4.length = size_t_of_int w3 * size_t_of_int h3 * 4)
    (hJ5 : J m5 = .ok v5)
    (hw5 : jget_arr_int v5 "shape" 0 = .ok w5)
    (hh5 : jget_arr_int v5 "shape" 1 = .ok h5)
    (hlen6 : m6.length = size_t_of_int w5 * size_t_of_int h5 * 4)
    (hJ7 : J m7 = .ok v7)
    (hw7 : jget_arr_int v7 "shape" 0 = .ok w7)
    (hh7 : jget_arr_int v7 "shape" 1 = .ok h7)
    (hlen8 : m8.length = size_t_of_int w7 * size_t_of_int h7 * 4) :
    (∀ s m s' b, dectris_global_data.parse J s m = .ok (s', b) →
       (b = true ↔ s'.m_parse_state = .done)) ∧
    (∃ sfin, parse_seq J (dgd_start uha)
        ([m1b, m2] ++ if uha then [mapp] else [])
      = .ok (sfin, [false] ++ if uha then [false, true] else [true]) ∧
      sfin.m_parse_state = .done) ∧
    (∃ sfin, parse_seq J (dgd_start uha)
        ([m1a, m2, m3, m4, m5, m6, m7, m8] ++ if uha then [mapp] else [])
      = .ok (sfin,
          [false, false, false, false, false, false, false] ++
            if uha then [false, true] else [true]) ∧
      sfin.m_parse_state = .done) := by
  refine ⟨?_, ?_, ?_⟩
  · intro s m s' b h
    unfold dectris_global_data.parse at h
    cases hstep : dectris_global_data.parse_step J s m with
    | error e =>
      rw [hstep] at h
      exact Except.noConfusion h
    | ok s0 =>
      rw [hstep] at h
      simp only [bind, Except.bind, Except.ok.injEq, Prod.mk.injEq] at h
      obtain ⟨rfl, rfl⟩ := h
      simp
  · cases uha with
    | false =>
      refine ⟨{ dgd_start false with
                m_series_id := sid,
                m_header_detail := .basic,
                m_config := cfg2,
                m_parse_state := .done }, ?_, ?_⟩
      · simp only [parse_seq, dectris_global_data.parse,
          dectris_global_data.parse_step, dgd_start,
          dectris_global_data.init, dectris_global_data.parse_part1,
          dectris_global_data.parse_part2, validate_htype,
          hJ1b, hht1b, hsid1b, hdet1b, hJ2,
          bind, Except.bind, pure, Except.pure]
        simp [hcfg]
      · rfl
    | true =>
      refine ⟨{ dgd_start true with
                m_series_id := sid,
                m_header_detail := .basic,
                m_config := cfg2,
                m_header_appendix := mapp,
                m_parse_state := .done }, ?_, ?_⟩
      · simp only [parse_seq, dectris_global_data.parse,
          dectris_global_data.parse_step, dgd_start,
          dectris_global_data.init,
          dectris_global_data.enable_header_appendix,
          dectris_global_data.parse_part1,
          dectris_global_data.parse_part2,
          dectris_global_data.parse_appendix, validate_htype,
          hJ1b, hht1b, hsid1b, hdet1b, hJ2,
          bind, Except.bind, pure, Except.pure]
        simp [hcfg]
      · rfl
  · cases uha with
    | false =>
      refine ⟨{ dgd_start false with
                m_series_id := sid,
                m_header_detail := .all,
                m_config := cfg2,
                m_flatfield := ⟨size_t_of_int w3, size_t_of_int h3, m4⟩,
                m_pixelmask := ⟨size_t_of_int w5, size_t_of_int h5, m6⟩,
                m_countrate_table := ⟨size_t_of_int w7, size_t_of_int h7, m8⟩,
                m_parse_state := .done }, ?_, ?_⟩
      · simp only [parse_seq, dectris_global_data.parse,
          dectris_global_data.parse_step, dgd_start,
          dectris_global_data.init, dectris_global_data.parse_part1,
          dectris_global_data.parse_part2, dectris_global_data.parse_part3,
          dectris_global_data.parse_part4, dectris_global_data.parse_part5,
          dectris_global_data.parse_part6, dectris_global_data.parse_part7,
          dectris_global_data.parse_part8,
          dectris_global_data.parse_shape_part, validate_htype,
          mask_t.reset_wh, mask_t.n_bytes, mask_t.init,
          hJ1a, hht1a, hsid1a, hdet1a, hJ2, hJ3, hw3, hh3, hJ5, hw5, hh5,
          hJ7, hw7, hh7,
          bind, Except.bind, pure, Except.pure]
        simp [hcfg, hlen4, hlen6, hlen8, mask_t.n_bytes, mask_t.reset_wh]
      · rfl
    | true =>
      refine ⟨{ dgd_start true with
                m_series_id := sid,
                m_header_detail := .all,
                m_config := cfg2,
                m_flatfield := ⟨size_t_of_int w3, size_t_of_int h3, m4⟩,
                m_pixelmask := ⟨size_t_of_int w5, size_t_of_int h5, m6⟩,
                m_countrate_table := ⟨size_t_of_int w7, size_t_of_int h7, m8⟩,
                m_header_appendix := mapp,
                m_parse_state := .done }, ?_, ?_⟩
      · simp only [parse_seq, dectris_global_data.parse,
          dectris_global_data.parse_step, dgd_start,
          dectris_global_data.init,
          dectris_global_data.enable_header_appendix,
          dectris_global_data.parse_part1,
          dectris_global_data.parse_part2, dectris_global_data.parse_part3,
          dectris_global_data.parse_part4, dectris_global_data.parse_part5,
          dectris_global_data.parse_part6, dectris_global_data.parse_part7,
          dectris_global_data.parse_part8,
          dectris_global_data.parse_appendix,
          dectris_global_data.parse_shape_part, validate_htype,
          mask_t.reset_wh, mask_t.n_bytes, mask_t.init,
          hJ1a, hht1a, hsid1a, hdet1a, hJ2, hJ3, hw3, hh3, hJ5, hw5, hh5,
          hJ7, hw7, hh7,
          bind, Except.bind, pure, Except.pure]
        simp [hcfg, hlen4, hlen6, hlen8, mask_t.n_bytes, mask_t.reset_wh]
      · rfl

theorem C3_witness :
    (∀ s m s' b, dectris_global_data.parse wit_J s m = .ok (s', b) →
       (b = true ↔ s'.m_parse_state = .done)) ∧
    (∃ sfin, parse_seq wit_J (dgd_start true) [[1], [2], [9]]
      = .ok (sfin, [false, false, true]) ∧
      sfin.m_parse_state = .done) ∧
    (∃ sfin, parse_seq wit_J (dgd_start true)
        [[11], [2], [3], wit_blob, [3], wit_blob, [3], wit_blob, [9]]
      = .ok (sfin,
          [false, false, false, false, false, false, false, false, true]) ∧
      sfin.m_parse_state = .done) :=
  C3_global_header_sequencing wit_J true [1] [11] [2] [3] wit_blob [3]
    wit_blob [3] wit_blob [9] wit_hdr_basic wit_hdr_all wit_cfg_obj
    wit_shape_obj wit_shape_obj wit_shape_obj 1 4 4 4 4 4 4 wit_cfg
    rfl rfl rfl rfl rfl rfl rfl rfl rfl rfl rfl rfl rfl rfl rfl rfl rfl
    rfl rfl rfl rfl rfl

/-- C5: in the `new_frame` state, a frame part-1 message
(htype `dimage-1.0`, carrying a frame id) or a series-end message
(htype `dseries_end-1.0`) whose `series` field differs from the series id
captured from the global header raises a fatal error. -/
theorem C5_series_id_mismatch_fatal (lib : codec_lib)
    (J : List Nat → Except String jval) (s : stream_to_cbf) (m : List Nat)
    (v : jval) (ht : String) (sid : Int)
    (hstate : s.m_parse_state = .new_frame)
    (hJ : J m = .ok v)
    (hht : jget_string v "htype" = .ok ht)
    (hcase : (ht = "dimage-1.0" ∧ ∃ f, jget_int v "frame" = .ok f) ∨
             ht = "dseries_end-1.0")
    (hsid : jget_int v "series" = .ok sid)
    (hmm : sid ≠ s.m_global.m_series_id) :
    ∃ e, stream_to_cbf.parse lib J s m = .error e := by
  rcases hcase with ⟨hd, f, hf⟩ | hd
  · subst hd
    refine ⟨"Invalid frame part 1 message: series id mismatch", ?_⟩
    simp only [stream_to_cbf.parse, hstate,
      stream_to_cbf.parse_part1_or_series_end, hJ, hht, hf, hsid,
      bind, Except.bind, pure, Except.pure]
    simp [hmm]
  · subst hd
    refine ⟨"Invalid series end message: series id mismatch", ?_⟩
    simp only [stream_to_cbf.parse, hstate,
      stream_to_cbf.parse_part1_or_series_end, hJ, hht, hsid,
      bind, Except.bind, pure, Except.pure]
    simp [hmm]

theorem C5_witness :
    ∃ e, stream_to_cbf.parse id_codec wit_J
      { stream_to_cbf.init false false with
        m_parse_state := scb_parse_state_t.new_frame } [5] = .error e :=
  C5_series_id_mismatch_fatal id_codec wit_J _ [5] wit_series_end_bad
    "dseries_end-1.0" 2 rfl rfl rfl (Or.inr rfl) rfl (by decide)

/-- C6: for each of the three calibration blobs (flatfield part 4,
pixelmask part 6, countrate table part 8), a raw blob whose byte length
differs from the mask size `width*height*sizeof(element)` declared by the
preceding shape header raises an error, and a matching blob is copied
into the corresponding mask (part 8 then moves to the appendix or done
state according to the appendix flag). -/
theorem C6_blob_length_checks (J : List Nat → Except String jval)
    (s : dectris_global_data) (blob : List Nat) :
    (s.m_parse_state = .part4 →
       (blob.length ≠ s.m_flatfield.n_bytes →
          ∃ e, s.parse J blob = .error e) ∧
       (blob.length = s.m_flatfield.n_bytes →
          s.parse J blob =
            .ok ({ s with
                     m_parse_state := .part5,
                     m_flatfield := { s.m_flatfield with data := blob } },
                 false))) ∧
    (s.m_parse_state = .part6 →
       (blob.length ≠ s.m_pixelmask.n_bytes →
          ∃ e, s.parse J blob = .error e) ∧
       (blob.length = s.m_pixelmask.n_bytes →
          s.parse J blob =
            .ok ({ s with
                     m_parse_state := .part7,
                     m_pixelmask := { s.m_pixelmask with data := blob } },
                 false))) ∧
    (s.m_parse_state = .part8 →
       (blob.length ≠ s.m_countrate_table.n_bytes →
          ∃ e, s.parse J blob = .error e) ∧
       (blob.length = s.m_countrate_table.n_bytes →
          s.parse J blob =
            .ok ({ s with
                     m_parse_state :=
                       if s.m_using_header_appendix then .appendix else .done,
                     m_countrate_table :=
                       { s.m_countrate_table with data := blob } },
                 !s.m_using_header_appendix))) := by
  refine ⟨?_, ?_, ?_⟩
  · intro hstate
    constructor
    · intro hlen
      refine ⟨"Expected flatfield size (bytes) differs from actual", ?_⟩
      simp only [dectris_global_data.parse, dectris_global_data.parse_step, hstate,
        dectris_global_data.parse_part4, bind, Except.bind, pure, Except.pure]
      simp [Ne.symm hlen]
    · intro hlen
      simp only [dectris_global_data.parse, dectris_global_data.parse_step, hstate,
        dectris_global_data.parse_part4, bind, Except.bind, pure, Except.pure]
      simp [hlen]
  · intro hstate
    constructor
    · intro hlen
      refine ⟨"Expected pixel mask size (bytes) differs from actual", ?_⟩
      simp only [dectris_global_data.parse, dectris_global_data.parse_step, hstate,
        dectris_global_data.parse_part6, bind, Except.bind, pure, Except.pure]
      simp [Ne.symm hlen]
    · intro hlen
      simp only [dectris_global_data.parse, dectris_global_data.parse_step, hstate,
        dectris_global_data.parse_part6, bind, Except.bind, pure, Except.pure]
      simp [hlen]
  · intro hstate
    constructor
    · intro hlen
      refine ⟨"Expected countrate table size (bytes) differs from actual", ?_⟩
      simp only [dectris_global_data.parse, dectris_global_data.parse_step, hstate,
        dectris_global_data.parse_part8, bind, Except.bind, pure, Except.pure]
      simp [Ne.symm hlen]
    · intro hlen
      cases huha : s.m_using_header_appendix <;>
      · simp only [dectris_global_data.parse, dectris_global_data.parse_step, hstate,
          dectris_global_data.parse_part8, bind, Except.bind, pure,
          Except.pure]
        simp [hlen, huha]

theorem C6_witness :
    (dectris_global_data.parse wit_J
        { dectris_global_data.init with
          m_parse_state := dgd_parse_state_t.part4,
          m_flatfield := ⟨4, 4, List.replicate 64 0⟩ } wit_blob
      = .ok ({ dectris_global_data.init with
               m_parse_state := dgd_parse_state_t.part5,
               m_flatfield := ⟨4, 4, wit_blob⟩ }, false)) ∧
    (∃ e, dectris_global_data.parse wit_J
        { dectris_global_data.init with
          m_parse_state := dgd_parse_state_t.part6,
          m_pixelmask := ⟨4, 4, List.replicate 64 0⟩ } [0, 1, 2]
      = .error e) ∧
    (dectris_global_data.parse wit_J
        { dectris_global_data.init with
          m_parse_state := dgd_parse_state_t.part8,
          m_countrate_table := ⟨4, 4, List.replicate 64 0⟩ } wit_blob
      = .ok ({ dectris_global_data.init with
               m_parse_state := dgd_parse_state_t.done,
               m_countrate_table := ⟨4, 4, wit_blob⟩ }, true)) :=
  ⟨(C6_blob_length_checks wit_J _ wit_blob).1 rfl |>.2 (by decide),
   (C6_blob_length_checks wit_J _ [0, 1, 2]).2.1 rfl |>.1 (by decide),
   (C6_blob_length_checks wit_J _ wit_blob).2.2 rfl |>.2 (by decide)⟩

/-- C8: in the `new_frame` state, a frame part-1 message with frame id
`f` and the matching series id makes the parser emit the miniCBF header
calls, whose recorded start angle is
`omega_start + (f - 1) * omega_increment`, computed from the current
series' detector config. -/
theorem C8_start_angle (lib : codec_lib)
    (J : List Nat → Except String jval) (s : stream_to_cbf) (m : List Nat)
    (v : jval) (f : Int)
    (hstate : s.m_parse_state = .new_frame)
    (hJ : J m = .ok v)
    (hht : jget_string v "htype" = .ok "dimage-1.0")
    (hf : jget_int v "frame" = .ok f)
    (hsid : jget_int v "series" = .ok s.m_global.m_series_id) :
    ∃ s' hv,
      stream_to_cbf.parse lib J s m = .ok (s', false) ∧
      s'.m_cbf = s.m_cbf ++
        [ cbf_op.new_datablock "image",
          cbf_op.new_datablock "image_1",
          cbf_op.new_category "array_data",
          cbf_op.new_column "header_convention",
          cbf_op.set_value "SLS_1.0",
          cbf_op.new_column "header_contents",
          cbf_op.set_value_header hv ] ∧
      hv.start_angle = s.m_global.m_config.omega_start +
        double.ofInt (f - 1) * s.m_global.m_config.omega_increment ∧
      (∀ a c : ℚ, s.m_global.m_config.omega_start = .val a →
        s.m_global.m_config.omega_increment = .val c →
        hv.start_angle = .val (a + ((f : ℚ) - 1) * c)) := by
  refine ⟨{ s with
            m_frame_id := f,
            m_parse_state := .midframe_part2,
            m_cbf := (s.m_cbf ++ [cbf_op.new_datablock "image"]) ++
              stream_to_cbf.cbf_header_ops s.m_global.m_config f },
          stream_to_cbf.cbf_header_values_of s.m_global.m_config f,
          ?_, ?_, rfl, ?_⟩
  · simp only [stream_to_cbf.parse, hstate,
      stream_to_cbf.parse_part1_or_series_end, hJ, hht, hf, hsid,
      bind, Except.bind, pure, Except.pure]
    simp [stream_to_cbf.build_cbf_header]
  · simp [stream_to_cbf.cbf_header_ops]
  · intro a c ha hc
    show s.m_global.m_config.omega_start +
        double.ofInt (f - 1) * s.m_global.m_config.omega_increment
      = double.val (a + ((f : ℚ) - 1) * c)
    rw [ha, hc]
    show double.val (a + ((f - 1 : Int) : ℚ) * c)
      = double.val (a + ((f : ℚ) - 1) * c)
    congr 1
    push_cast
    ring

theorem C8_witness :
    ∃ s' hv,
      stream_to_cbf.parse id_codec wit_J
        { stream_to_cbf.init false false with
          m_parse_state := scb_parse_state_t.new_frame,
          m_global := { dectris_global_data.init with
                        m_series_id := 1,
                        m_config := { detector_config_t.init with
                                      omega_start := double.val 0,
                                      omega_increment := double.val 90 } } }
        [4] = .ok (s', false) ∧
      s'.m_cbf = [] ++
        [ cbf_op.new_datablock "image",
          cbf_op.new_datablock "image_1",
          cbf_op.new_category "array_data",
          cbf_op.new_column "header_convention",
          cbf_op.set_value "SLS_1.0",
          cbf_op.new_column "header_contents",
          cbf_op.set_value_header hv ] ∧
      hv.start_angle = double.val 0 +
        double.ofInt (3 - 1) * double.val 90 ∧
      (∀ a c : ℚ, double.val 0 = double.val a →
        double.val 90 = double.val c →
        hv.start_angle = .val (a + ((3 : ℚ) - 1) * c)) :=
  C8_start_angle id_codec wit_J _ [4] wit_frame1_obj 3 rfl rfl rfl rfl rfl

set_option maxHeartbeats 1000000 in
theorem detector_config_parse_bit_depth (c : detector_config_t) (v : jval)
    (c' : detector_config_t)
    (h : detector_config_t.parse c v = .ok c') :
    c'.bit_depth_image = 32 := by
  unfold detector_config_t.parse at h
  simp only [bind, Except.bind, pure, Except.pure] at h
  repeat' split at h
  all_goals try exact Except.noConfusion h
  all_goals
    simp only [Except.ok.injEq] at h
  all_goals subst h
  all_goals dsimp only
  all_goals omega

theorem p1ose_preserves_global (J : List Nat → Except String jval)
    (s : stream_to_cbf) (m : List Nat) (r : Bool) (t : stream_to_cbf)
    (h : stream_to_cbf.parse_part1_or_series_end J s m = .ok (r, t)) :
    t.m_global = s.m_global := by
  unfold stream_to_cbf.parse_part1_or_series_end at h
  simp only [bind, Except.bind, pure, Except.pure] at h
  repeat' split at h
  all_goals try exact Except.noConfusion h
  all_goals
    simp only [Except.ok.injEq, Prod.mk.injEq] at h
  all_goals obtain ⟨h1, h2⟩ := h
  all_goals subst h2
  all_goals rfl

theorem parse_part3_config (J : List Nat → Except String jval)
    (g : dectris_global_data) (m : List Nat) (s1 : dectris_global_data)
    (h : dectris_global_data.parse_part3 J g m = .ok s1) :
    s1.m_config = g.m_config := by
  unfold dectris_global_data.parse_part3
    dectris_global_data.parse_shape_part at h
  simp only [bind, Except.bind, pure, Except.pure] at h
  repeat' split at h
  all_goals try exact Except.noConfusion h
  all_goals simp only [Except.ok.injEq] at h
  all_goals subst h
  all_goals rfl

theorem parse_part4_config (J : List Nat → Except String jval)
    (g : dectris_global_data) (m : List Nat) (s1 : dectris_global_data)
    (h : dectris_global_data.parse_part4 J g m = .ok s1) :
    s1.m_config = g.m_config := by
  unfold dectris_global_data.parse_part4 at h
  repeat' split at h
  all_goals try exact Except.noConfusion h
  all_goals simp only [Except.ok.injEq] at h
  all_goals subst h
  all_goals rfl

theorem parse_part5_config (J : List Nat → Except String jval)
    (g : dectris_global_data) (m : List Nat) (s1 : dectris_global_data)
    (h : dectris_global_data.parse_part5 J g m = .ok s1) :
    s1.m_config = g.m_config := by
  unfold dectris_global_data.parse_part5
    dectris_global_data.parse_shape_part at h
  simp only [bind, Except.bind, pure, Except.pure] at h
  repeat' split at h
  all_goals try exact Except.noConfusion h
  all_goals simp only [Except.ok.injEq] at h
  all_goals subst h
  all_goals rfl

theorem parse_part6_config (J : List Nat → Except String jval)
    (g : dectris_global_data) (m : List Nat) (s1 : dectris_global_data)
    (h : dectris_global_data.parse_part6 J g m = .ok s1) :
    s1.m_config = g.m_config := by
  unfold dectris_global_data.parse_part6 at h
  repeat' split at h
  all_goals try exact Except.noConfusion h
  all_goals simp only [Except.ok.injEq] at h
  all_goals subst h
  all_goals rfl

theorem parse_part7_config (J : List Nat → Except String jval)
    (g : dectris_global_data) (m : List Nat) (s1 : dectris_global_data)
    (h : dectris_global_data.parse_part7 J g m = .ok s1) :
    s1.m_config = g.m_config := by
  unfold dectris_global_data.parse_part7
    dectris_global_data.parse_shape_part at h
  simp only [bind, Except.bind, pure, Except.pure] at h
  repeat' split at h
  all_goals try exact Except.noConfusion h
  all_goals simp only [Except.ok.injEq] at h
  all_goals subst h
  all_goals rfl

theorem parse_part8_config (J : List Nat → Except String jval)
    (g : dectris_global_data) (m : List Nat) (s1 : dectris_global_data)
    (h : dectris_global_data.parse_part8 J g m = .ok s1) :
    s1.m_config = g.m_config := by
  unfold dectris_global_data.parse_part8 at h
  repeat' split at h
  all_goals try exact Except.noConfusion h
  all_goals simp only [Except.ok.injEq] at h
  all_goals subst h
  all_goals rfl

set_option maxHeartbeats 1000000 in
theorem dgd_inv_preserved (J : List Nat → Except String jval)
    (g : dectris_global_data) (m : List Nat)
    (g' : dectris_global_data) (b : Bool)
    (hinv : dgd_inv g)
    (h : dectris_global_data.parse J g m = .ok (g', b)) :
    dgd_inv g' := by
  unfold dectris_global_data.parse at h
  cases hstep : dectris_global_data.parse_step J g m with
  | error e => rw [hstep] at h; exact Except.noConfusion h
  | ok s0 =>
    rw [hstep] at h
    simp only [bind, Except.bind, Except.ok.injEq, Prod.mk.injEq] at h
    obtain ⟨rfl, rfl⟩ := h
    unfold dectris_global_data.parse_step at hstep
    cases hg : g.m_parse_state <;> rw [hg] at hstep <;>
      simp only [bind, Except.bind, pure, Except.pure] at hstep
    case unknown => exact Except.noConfusion hstep
    case part1 =>
      repeat' split at hstep
      all_goals try exact Except.noConfusion hstep
      all_goals simp only [Except.ok.injEq] at hstep
      all_goals subst hstep
      all_goals intro hpast
      all_goals simp [dgd_past_part2] at hpast
    case part2 =>
      simp only [dectris_global_data.parse_part2, bind, Except.bind,
        pure, Except.pure] at hstep
      cases hJm : J m with
      | error e =>
        simp only [hJm] at hstep
        exact Except.noConfusion hstep
      | ok record =>
        simp only [hJm] at hstep
        cases hc : detector_config_t.parse g.m_config record with
        | error e =>
          simp only [hc] at hstep
          exact Except.noConfusion hstep
        | ok cfg =>
          simp only [hc] at hstep
          split at hstep
          · simp only [Except.ok.injEq] at hstep
            subst hstep
            intro _
            exact detector_config_parse_bit_depth _ _ _ hc
          · split at hstep
            · simp only [Except.ok.injEq] at hstep
              subst hstep
              intro _
              exact detector_config_parse_bit_depth _ _ _ hc
            · exact Except.noConfusion hstep
    case part3 =>
      cases hp : dectris_global_data.parse_part3 J g m with
      | error e =>
        simp only [hp] at hstep
        exact Except.noConfusion hstep
      | ok s1 =>
        simp only [hp, Except.ok.injEq] at hstep
        subst hstep
        intro _
        show s1.m_config.bit_depth_image = 32
        rw [parse_part3_config J g m s1 hp]
        exact hinv (by rw [hg]; trivial)
    case part4 =>
      cases hp : dectris_global_data.parse_part4 J g m with
      | error e =>
        simp only [hp] at hstep
        exact Except.noConfusion hstep
      | ok s1 =>
        simp only [hp, Except.ok.injEq] at hstep
        subst hstep
        intro _
        show s1.m_config.bit_depth_image = 32
        rw [parse_part4_config J g m s1 hp]
        exact hinv (by rw [hg]; trivial)
    case part5 =>
      cases hp : dectris_global_data.parse_part5 J g m with
      | error e =>
        simp only [hp] at hstep
        exact Except.noConfusion hstep
      | ok s1 =>
        simp only [hp, Except.ok.injEq] at hstep
        subst hstep
        intro _
        show s1.m_config.bit_depth_image = 32
        rw [parse_part5_config J g m s1 hp]
        exact hinv (by rw [hg]; trivial)
    case part6 =>
      cases hp : dectris_global_data.parse_part6 J g m with
      | error e =>
        simp only [hp] at hstep
        exact Except.noConfusion hstep
      | ok s1 =>
        simp only [hp, Except.ok.injEq] at hstep
        subst hstep
        intro _
        show s1.m_config.bit_depth_image = 32
        rw [parse_part6_config J g m s1 hp]
        exact hinv (by rw [hg]; trivial)
    case part7 =>
      cases hp : dectris_global_data.parse_part7 J g m with
      | error e =>
        simp only [hp] at hstep
        exact Except.noConfusion hstep
      | ok s1 =>
        simp only [hp, Except.ok.injEq] at hstep
        subst hstep
        intro _
        show s1.m_config.bit_depth_image = 32
        rw [parse_part7_config J g m s1 hp]
        exact hinv (by rw [hg]; trivial)
    case part8 =>
      cases hp : dectris_global_data.parse_part8 J g m with
      | error e =>
        simp only [hp] at hstep
        exact Except.noConfusion hstep
      | ok s1 =>
        simp only [hp, Except.ok.injEq] at hstep
        subst hstep
        intro _
        show s1.m_config.bit_depth_image = 32
        rw [parse_part8_config J g m s1 hp]
        exact hinv (by rw [hg]; trivial)
    case appendix =>
      simp only [dectris_global_data.parse_appendix, Except.ok.injEq] at hstep
      subst hstep
      intro _
      show g.m_config.bit_depth_image = 32
      exact hinv (by rw [hg]; trivial)
    case done =>
      simp only [Except.ok.injEq] at hstep
      subst hstep
      intro hpast
      simp [dectris_global_data.reset, dgd_past_part2] at hpast

set_option maxHeartbeats 1000000 in
theorem stream_inv_step (lib : codec_lib)
    (J : List Nat → Except String jval) (s : stream_to_cbf) (m : List Nat)
    (s' : stream_to_cbf) (b : Bool)
    (hinv : dgd_inv s.m_global)
    (h : stream_to_cbf.parse lib J s m = .ok (s', b)) :
    dgd_inv s'.m_global := by
  unfold stream_to_cbf.parse at h
  cases hst : s.m_parse_state <;> rw [hst] at h <;>
    simp only [bind, Except.bind, pure, Except.pure] at h
  case error =>
    simp only [Except.ok.injEq, Prod.mk.injEq] at h
    obtain ⟨rfl, rfl⟩ := h
    exact hinv
  case global_header =>
    cases hgp : s.m_global.parse J m with
    | error e =>
      simp only [hgp] at h
      exact Except.noConfusion h
    | ok gp =>
      obtain ⟨g, fin⟩ := gp
      simp only [hgp] at h
      have hg' : dgd_inv g := dgd_inv_preserved J s.m_global m g fin hinv hgp
      split at h
      · simp only [Except.ok.injEq, Prod.mk.injEq] at h
        obtain ⟨rfl, rfl⟩ := h
        exact hg'
      · simp only [Except.ok.injEq, Prod.mk.injEq] at h
        obtain ⟨rfl, rfl⟩ := h
        exact hg'
  case new_frame =>
    cases hp1 : stream_to_cbf.parse_part1_or_series_end J s m with
    | error e =>
      simp only [hp1] at h
      exact Except.noConfusion h
    | ok rt =>
      obtain ⟨r, t⟩ := rt
      simp only [hp1] at h
      have htg : t.m_global = s.m_global := p1ose_preserves_global J s m r t hp1
      split at h
      · simp only [Except.ok.injEq, Prod.mk.injEq] at h
        obtain ⟨rfl, rfl⟩ := h
        -- s' = t.reset : its global data is t.m_global.reset, in state part1
        intro hpast
        simp [stream_to_cbf.reset, dectris_global_data.reset,
          dgd_past_part2] at hpast
      · simp only [Except.ok.injEq, Prod.mk.injEq] at h
        obtain ⟨rfl, rfl⟩ := h
        show dgd_inv t.m_global
        rw [htg]
        exact hinv
  case midframe_part2 =>
    simp only [stream_to_cbf.parse_part2, bind, Except.bind, pure,
      Except.pure, Except.ok.injEq, Prod.mk.injEq] at h
    obtain ⟨rfl, rfl⟩ := h
    exact hinv
  case midframe_part3 =>
    simp only [stream_to_cbf.parse_part3, bind, Except.bind, pure,
      Except.pure] at h
    cases hd : unique_buffer.decode lib s.m_buffer
        s.m_global.m_config.compression m with
    | error e =>
      simp only [hd] at h
      exact Except.noConfusion h
    | ok buf =>
      simp only [hd, Except.ok.injEq, Prod.mk.injEq] at h
      obtain ⟨rfl, rfl⟩ := h
      exact hinv
  case midframe_part4 =>
    simp only [stream_to_cbf.parse_part4, bind, Except.bind, pure,
      Except.pure] at h
    split at h
    · simp only [Except.ok.injEq, Prod.mk.injEq] at h
      obtain ⟨rfl, rfl⟩ := h
      exact hinv
    · simp only [Except.ok.injEq, Prod.mk.injEq] at h
      obtain ⟨rfl, rfl⟩ := h
      exact hinv
  case midframe_appendix =>
    simp only [Except.ok.injEq, Prod.mk.injEq] at h
    obtain ⟨rfl, rfl⟩ := h
    exact hinv

theorem stream_reachable_inv (lib : codec_lib)
    (J : List Nat → Except String jval) (uha uia : Bool)
    (s : stream_to_cbf) (h : stream_reachable lib J uha uia s) :
    dgd_inv s.m_global := by
  induction h with
  | start =>
    intro hpast
    cases uha <;>
      simp [stream_to_cbf.init, dectris_global_data.init,
        dectris_global_data.enable_header_appendix, dgd_past_part2] at hpast
  | step hr hp ih => exact stream_inv_step _ _ _ _ _ _ ih hp

set_option maxHeartbeats 1000000 in
/-- C7: whenever the global header completes (the top-level state machine
leaves `global_header` for `new_frame` on a `parse` call from a reachable
state), the frame decode buffer's length equals
`bit_depth_image/8 * x_pixels_in_detector * y_pixels_in_detector` (as
`size_t` arithmetic, i.e. modulo 2^64), and `bit_depth_image = 32` since
part-2 parsing enforces it. -/
theorem C7_decode_buffer_size (lib : codec_lib)
    (J : List Nat → Except String jval) (uha uia : Bool)
    (s : stream_to_cbf) (m : List Nat) (s' : stream_to_cbf) (b : Bool)
    (hreach : stream_reachable lib J uha uia s)
    (hs : s.m_parse_state = .global_header)
    (hp : stream_to_cbf.parse lib J s m = .ok (s', b))
    (hs' : s'.m_parse_state = .new_frame) :
    s'.m_global.m_config.bit_depth_image = 32 ∧
    s'.m_buffer.m_len = size_t_of_int
      ((s'.m_global.m_config.bit_depth_image / 8) *
        s'.m_global.m_config.x_pixels_in_detector *
        s'.m_global.m_config.y_pixels_in_detector) := by
  have hinv : dgd_inv s.m_global := stream_reachable_inv lib J uha uia s hreach
  unfold stream_to_cbf.parse at hp
  rw [hs] at hp
  simp only [bind, Except.bind, pure, Except.pure] at hp
  cases hgp : s.m_global.parse J m with
  | error e =>
    simp only [hgp] at hp
    exact Except.noConfusion hp
  | ok gp =>
    obtain ⟨g, fin⟩ := gp
    simp only [hgp] at hp
    have hg' : dgd_inv g := dgd_inv_preserved J s.m_global m g fin hinv hgp
    cases fin with
    | false =>
      simp only [Bool.false_eq_true, if_false, reduceIte,
        Except.ok.injEq, Prod.mk.injEq] at hp
      obtain ⟨rfl, rfl⟩ := hp
      simp at hs'
    | true =>
      simp only [reduceIte, Except.ok.injEq, Prod.mk.injEq] at hp
      obtain ⟨rfl, rfl⟩ := hp
      -- the global parser returned true, so its state is done
      have hdone : g.m_parse_state = .done := by
        unfold dectris_global_data.parse at hgp
        cases hstep : dectris_global_data.parse_step J s.m_global m with
        | error e => rw [hstep] at hgp; exact Except.noConfusion hgp
        | ok s0 =>
          rw [hstep] at hgp
          simp only [bind, Except.bind, Except.ok.injEq,
            Prod.mk.injEq] at hgp
          obtain ⟨rfl, hb⟩ := hgp
          exact of_decide_eq_true hb
      have hbit : g.m_config.bit_depth_image = 32 := by
        apply hg'
        rw [hdone]
        trivial
      constructor
      · exact hbit
      · show (unique_buffer.resize _ _).m_len = _
        unfold unique_buffer.resize
        rw [unique_buffer.reset_m_len]
        show size_t_of_int (4 * g.m_config.x_pixels_in_detector *
              g.m_config.y_pixels_in_detector)
          = size_t_of_int ((g.m_config.bit_depth_image / 8) *
              g.m_config.x_pixels_in_detector *
              g.m_config.y_pixels_in_detector)
        rw [hbit]
        norm_num

theorem C7_witness :
    c7_s2.m_global.m_config.bit_depth_image = 32 ∧
    c7_s2.m_buffer.m_len = size_t_of_int
      ((c7_s2.m_global.m_config.bit_depth_image / 8) *
        c7_s2.m_global.m_config.x_pixels_in_detector *
        c7_s2.m_global.m_config.y_pixels_in_detector) :=
  C7_decode_buffer_size id_codec wit_J false false c7_s1 [2] c7_s2 false
    (stream_reachable.step stream_reachable.start
      (rfl : stream_to_cbf.parse id_codec wit_J
        (stream_to_cbf.init false false) [1] = .ok (c7_s1, false)))
    rfl rfl rfl

end BigPicture
